import Mathlib

set_option maxRecDepth 10000

/-!
# Verification of the homeboard generic widget pipeline

Shallow embedding of `src/widgets/generic_api_widget.py` (class
`WidgetExecutor`): the JSON-path resolver, the data-mapping applier, the
template renderer registry, the RSS acquisition tiering, and the top-level
`execute` wrapper.  Python values decoded from JSON are modelled by the
inductive type `JValue` (JSON numbers are modelled as integers; the
pipeline performs no other arithmetic except the chart mean, which is
modelled with exact rational rounding).  Python exceptions are modelled by
the type `PyErr`; a function that can raise returns `Except PyErr α`.
Network effects are modelled as oracle parameters supplying the outcome of
each HTTP interaction.
-/

/-- A JSON-like Python value: the shape of raw API data and of mapped data
values.  Python dicts are modelled as insertion-ordered association lists
with (as produced by JSON decoding) string keys. -/
inductive JValue where
  | null : JValue
  | bool : Bool → JValue
  | num : Int → JValue
  | str : String → JValue
  | arr : List JValue → JValue
  | obj : List (String × JValue) → JValue

/-- A Python exception, tagged by class.  `keyError` carries the repr text
of the missing key (Python's `str(KeyError(k))` shows `repr(k)`). -/
inductive PyErr where
  | valueError (msg : String)
  | keyError (keyRepr : String)
  | typeError (msg : String)
  | indexError (msg : String)
  | exception (msg : String)
deriving DecidableEq

/-- Model of `str(e)` for a caught exception `e`, as used when building error
fragments. -/
def errMsg : PyErr → String
  | .valueError m => m
  | .keyError k => k
  | .typeError m => m
  | .indexError m => m
  | .exception m => m

/-- Python type name of a decoded JSON value, used in TypeError messages. -/
def typeName : JValue → String
  | .null => "NoneType"
  | .bool _ => "bool"
  | .num _ => "int"
  | .str _ => "str"
  | .arr _ => "list"
  | .obj _ => "dict"

/-- First-match lookup in an association list: Python `d[k]` / `d.get(k)`
on a dict (JSON-decoded dicts have unique keys). -/
def alistLookup (kvs : List (String × JValue)) (k : String) : Option JValue :=
  match kvs with
  | [] => none
  | (k1, v) :: rest => if k1 = k then some v else alistLookup rest k

/-- Python truthiness of a decoded JSON value. -/
def pyTruthy : JValue → Bool
  | .null => false
  | .bool b => b
  | .num n => n != 0
  | .str s => s != ""
  | .arr xs => !xs.isEmpty
  | .obj kvs => !kvs.isEmpty

/-! ## Character-list utilities

The path resolver works on strings; for provability every string operation
it needs is defined here by structural recursion over `List Char`. -/

/-- Does the character list contain `c`?  (Python `c in s`.) -/
def hasCh (c : Char) : List Char → Bool
  | [] => false
  | x :: xs => x = c || hasCh c xs

/-- Python `s.split(c)`: splitting the empty string yields `[[]]`. -/
def splitOnCh (c : Char) : List Char → List (List Char)
  | [] => [[]]
  | x :: xs =>
    if x = c then [] :: splitOnCh c xs
    else
      match splitOnCh c xs with
      | [] => [[x]]
      | h :: t => (x :: h) :: t

/-- Python `s.split(c, 1)` under the guarantee that `c` occurs in `s`
(the resolver only splits a segment on a bracket after checking the
bracket is present): the part before the first `c` and the part after. -/
def splitFirstCh (c : Char) : List Char → List Char × List Char
  | [] => ([], [])
  | x :: xs =>
    if x = c then ([], xs)
    else
      let p := splitFirstCh c xs
      (x :: p.1, p.2)

/-- Python `s.rstrip(c)`: remove every trailing occurrence of `c`. -/
def rstripCh (c : Char) (l : List Char) : List Char :=
  (l.reverse.dropWhile (fun x => x = c)).reverse

/-- ASCII decimal digit for `n % 10`-style values. -/
def digitCh (n : Nat) : Char :=
  match n with
  | 0 => '0' | 1 => '1' | 2 => '2' | 3 => '3' | 4 => '4'
  | 5 => '5' | 6 => '6' | 7 => '7' | 8 => '8' | _ => '9'

/-- Decimal digits of `n`, most significant first; fuel-structured so that
it evaluates by kernel reduction (`natDigitsAux fuel n` is correct for
`n < fuel`). -/
def natDigitsAux : Nat → Nat → List Char
  | 0, _ => []
  | fuel + 1, n =>
    if n < 10 then [digitCh n]
    else natDigitsAux fuel (n / 10) ++ [digitCh (n % 10)]

/-- Decimal digits of `n`, most significant first. -/
def natDigits (n : Nat) : List Char := natDigitsAux (n + 1) n

/-- Python `str` of a natural number. -/
def natStr (n : Nat) : String := String.mk (natDigits n)

/-- Python `str` of an `int`. -/
def intStr (i : Int) : String :=
  if i < 0 then "-" ++ natStr i.natAbs else natStr i.natAbs

/-- Numeric value of a digit character. -/
def digitVal (c : Char) : Nat := c.toNat - 48

/-- Value of a big-endian digit string. -/
def digitsToNat (l : List Char) : Nat :=
  l.foldl (fun acc c => acc * 10 + digitVal c) 0

/-- Python `str.isdigit` (restricted to ASCII digits, which is all the
resolver's tests exercise). -/
def pyIsDigit (l : List Char) : Bool := !l.isEmpty && l.all (·.isDigit)

/-- Whitespace recognised by Python `int()` / `float()` stripping. -/
def isPyWs (c : Char) : Bool := c = ' ' || c = '\t' || c = '\n' || c = '\r'

/-- Strip leading and trailing whitespace. -/
def stripWs (l : List Char) : List Char :=
  ((l.dropWhile isPyWs).reverse.dropWhile isPyWs).reverse

/-- Digits-only parse (no sign). -/
def parseDigits (l : List Char) : Option Nat :=
  if !l.isEmpty && l.all (·.isDigit) then some (digitsToNat l) else none

/-- Python `int(s)`: optional surrounding whitespace, optional sign, then
decimal digits (digit-group underscores are not modelled; no path in this
repository uses them). -/
def parsePyInt (l : List Char) : Option Int :=
  match stripWs l with
  | [] => none
  | c :: rest =>
    if c = '-' then (parseDigits rest).map (fun n => -(n : Int))
    else if c = '+' then (parseDigits rest).map (fun n => (n : Int))
    else (parseDigits (c :: rest)).map (fun n => (n : Int))

/-- Python `float(s)` parseability (used by the resolver's literal check):
optional surrounding whitespace and sign, then `inf`/`infinity`/`nan`
(case-insensitive) or a decimal mantissa with optional exponent.
Digit-group underscores are not modelled. -/
def dropSignCh : List Char → List Char
  | '+' :: rest => rest
  | '-' :: rest => rest
  | l => l

/-- Split at the first `e`/`E`: mantissa and optional exponent text. -/
def splitExpCh : List Char → List Char × Option (List Char)
  | [] => ([], none)
  | c :: rest =>
    if c = 'e' || c = 'E' then ([], some rest)
    else
      let p := splitExpCh rest
      (c :: p.1, p.2)

/-- Is `m` a valid float mantissa: `digits`, `digits.digits`, `.digits`
or `digits.` with at least one digit overall? -/
def floatMantissaOk (m : List Char) : Bool :=
  if hasCh '.' m then
    let p := splitFirstCh '.' m
    !(hasCh '.' p.2) && p.1.all (·.isDigit) && p.2.all (·.isDigit)
      && (!p.1.isEmpty || !p.2.isEmpty)
  else
    !m.isEmpty && m.all (·.isDigit)

/-- Is `e` a valid float exponent: optional sign then digits? -/
def floatExpOk (e : List Char) : Bool :=
  let d := dropSignCh e
  !d.isEmpty && d.all (·.isDigit)

/-- Does `float(s)` succeed in Python? -/
def pyFloatParses (l : List Char) : Bool :=
  let body := dropSignCh (stripWs l)
  let low := body.map Char.toLower
  if low = "inf".data || low = "infinity".data || low = "nan".data then true
  else
    let p := splitExpCh body
    floatMantissaOk p.1 && (match p.2 with
      | none => true
      | some e => floatExpOk e)

/-! ## Python `str`/`repr` of decoded JSON values

`safe_str` stringifies values before display.  `repr` of containers is
modelled for the characters that JSON string data can carry; CPython
additionally hex-escapes non-printable characters, which no value in this
development contains. -/

/-- Quote-and-escape of a string as CPython `repr` renders it: single
quotes unless the string contains a single quote and no double quote. -/
def pyStrReprBody (quote : Char) (l : List Char) : List Char :=
  match l with
  | [] => []
  | c :: rest =>
    (if c = '\\' then ['\\', '\\']
     else if c = quote then ['\\', quote]
     else if c = Char.ofNat 10 then ['\\', 'n']
     else if c = Char.ofNat 13 then ['\\', 'r']
     else if c = Char.ofNat 9 then ['\\', 't']
     else [c]) ++ pyStrReprBody quote rest

/-- CPython `repr` of a `str`. -/
def pyStrRepr (s : String) : String :=
  let hasSingle := hasCh (Char.ofNat 39) s.data
  let hasDouble := hasCh (Char.ofNat 34) s.data
  let q : Char := if hasSingle && !hasDouble then Char.ofNat 34 else Char.ofNat 39
  String.mk (q :: pyStrReprBody q s.data ++ [q])

mutual

/-- Python `str()` of a decoded JSON value (containers print as their
repr, which is what `str` does for `list`/`dict`). -/
def pyStr : JValue → String
  | .null => "None"
  | .bool true => "True"
  | .bool false => "False"
  | .num n => intStr n
  | .str s => s
  | .arr xs => "[" ++ pyReprList xs ++ "]"
  | .obj kvs => "\x7b" ++ pyReprObj kvs ++ "\x7d"

/-- Python `repr()` of a decoded JSON value. -/
def pyRepr : JValue → String
  | .null => "None"
  | .bool true => "True"
  | .bool false => "False"
  | .num n => intStr n
  | .str s => pyStrRepr s
  | .arr xs => "[" ++ pyReprList xs ++ "]"
  | .obj kvs => "\x7b" ++ pyReprObj kvs ++ "\x7d"

/-- Comma-separated reprs of list elements. -/
def pyReprList : List JValue → String
  | [] => ""
  | [x] => pyRepr x
  | x :: y :: rest => pyRepr x ++ ", " ++ pyReprList (y :: rest)

/-- Comma-separated `key: value` reprs of dict entries. -/
def pyReprObj : List (String × JValue) → String
  | [] => ""
  | [(k, v)] => pyStrRepr k ++ ": " ++ pyRepr v
  | (k, v) :: e :: rest => pyStrRepr k ++ ": " ++ pyRepr v ++ ", " ++ pyReprObj (e :: rest)

end

/-- Embeds `WidgetExecutor.safe_str`: `''` for `None`, else `str(value)`. -/
def safe_str : JValue → String
  | .null => ""
  | v => pyStr v

/-- One character of `html.escape(s, quote=True)`. -/
def escCh (c : Char) : List Char :=
  if c = '&' then "&amp;".data
  else if c = '<' then "&lt;".data
  else if c = '>' then "&gt;".data
  else if c = Char.ofNat 34 then "&quot;".data
  else if c = Char.ofNat 39 then "&#x27;".data
  else [c]

/-- Python `html.escape(s)` with the default `quote=True`. -/
def htmlEscape (s : String) : String :=
  String.mk (s.data.flatMap escCh)

/-! ## Path Resolver (`WidgetExecutor.extract_json_path`) -/

/-- Python `current[name]` for a string subscript, as used when descending
into `current[array_name]` (outside the index `try`): dict lookup may
raise `KeyError`; any other container raises `TypeError`. -/
def pySubscriptStr (current : JValue) (name : String) : Except PyErr JValue :=
  match current with
  | .obj kvs =>
    match alistLookup kvs name with
    | some v => .ok v
    | none => .error (.keyError (pyStrRepr name))
  | .arr _ => .error (.typeError "list indices must be integers or slices, not str")
  | .str _ => .error (.typeError "string indices must be integers")
  | v => .error (.typeError ("'" ++ typeName v ++ "' object is not subscriptable"))

/-- Python `current[index]` for an integer subscript: list indexing with
negative-index wraparound, string indexing yielding a one-character
string, `KeyError` on dicts (decoded JSON dicts never carry integer
keys), `TypeError` otherwise. -/
def pySubscriptInt (current : JValue) (i : Int) : Except PyErr JValue :=
  match current with
  | .arr xs =>
    let n : Int := (xs.length : Int)
    let j : Int := if i < 0 then i + n else i
    if h : 0 ≤ j ∧ j < n then .ok (xs.get ⟨j.toNat, by omega⟩)
    else .error (.indexError "list index out of range")
  | .str s =>
    let n : Int := (s.data.length : Int)
    let j : Int := if i < 0 then i + n else i
    if h : 0 ≤ j ∧ j < n then .ok (.str (String.mk [s.data.get ⟨j.toNat, by omega⟩]))
    else .error (.indexError "string index out of range")
  | .obj _ => .error (.keyError (intStr i))
  | v => .error (.typeError ("'" ++ typeName v ++ "' object is not subscriptable"))

/-- The bracket-index step of the resolver: `int(index_str)` then
`current[index]`, where `ValueError`, `IndexError` and `TypeError` are
re-raised as `ValueError("Invalid array index: …")` while a `KeyError`
propagates unchanged (it is not in the `except` tuple). -/
def indexStep (current : JValue) (indexStr : String) : Except PyErr JValue :=
  match parsePyInt indexStr.data with
  | none => .error (.valueError ("Invalid array index: " ++ indexStr))
  | some i =>
    match pySubscriptInt current i with
    | .ok v => .ok v
    | .error (.keyError k) => .error (.keyError k)
    | .error _ => .error (.valueError ("Invalid array index: " ++ indexStr))

/-- The `for part in parts` loop of `extract_json_path`: left-to-right
traversal, empty segments skipped, `name[index]` segments split on the
first `[` with trailing `]` stripped, plain segments requiring a dict. -/
def extractLoop (current : JValue) : List (List Char) → Except PyErr JValue
  | [] => .ok current
  | part :: rest =>
    if part = [] then extractLoop current rest
    else if hasCh '[' part && hasCh ']' part then
      let sp := splitFirstCh '[' part
      let indexStr := rstripCh ']' sp.2
      match (if sp.1 ≠ [] then pySubscriptStr current (String.mk sp.1) else .ok current) with
      | .error e => .error e
      | .ok cur1 =>
        match indexStep cur1 (String.mk indexStr) with
        | .error e => .error e
        | .ok cur2 => extractLoop cur2 rest
    else
      match current with
      | .obj kvs =>
        match alistLookup kvs (String.mk part) with
        | some v => extractLoop v rest
        | none => .error (.keyError (pyStrRepr (String.mk part)))
      | _ => .error (.valueError ("Cannot access '" ++ String.mk part ++ "' on non-dict type"))

/-- Embeds `WidgetExecutor.extract_json_path`: empty path returns the data; a
single segment without dots or brackets tries dict lookup, then the
numeric-literal interpretation, then `dict.get` (dicts only); otherwise
the path is split on `.` and traversed segment by segment. -/
def extract_json_path (data : JValue) (path : String) : Except PyErr JValue :=
  let pc := path.data
  if pc = [] then .ok data
  else if !hasCh '.' pc && !hasCh '[' pc && !hasCh ']' pc then
    match data with
    | .obj kvs =>
      match alistLookup kvs path with
      | some v => .ok v
      | none =>
        if pyIsDigit pc then .ok (.str path)
        else if pyFloatParses pc then .ok (.str path)
        else .ok .null
    | _ =>
      if pyIsDigit pc then .ok (.str path)
      else if pyFloatParses pc then .ok (.str path)
      else extractLoop data (splitOnCh '.' pc)
  else extractLoop data (splitOnCh '.' pc)

/-! ## Mapping Applier (`WidgetExecutor.apply_data_mapping`) -/

/-- Embeds `WidgetExecutor.apply_data_mapping`: for each `(field, path)` entry of
the mapping table, resolve the path against the raw data; a resolution
failure is logged and degrades to `None` for that field only. -/
def apply_data_mapping (mapping : List (String × String)) (api_data : JValue) :
    List (String × JValue) :=
  mapping.map (fun fp =>
    (fp.1, match extract_json_path api_data fp.2 with
      | .ok v => v
      | .error _ => JValue.null))

/-! ## Template literals and special characters

The non-ASCII strings below reproduce, codepoint for codepoint, the byte
sequences present in the source file (the file stores mojibake for what
were once emoji; the exact characters are irrelevant to the claims but are
kept faithful). -/

/-- Default weather icon string (source line 336). -/
def iconWeather : String :=
  String.mk [Char.ofNat 0xF8FF, Char.ofNat 0xFC, Char.ofNat 0xE5, Char.ofNat 0xA7,
             Char.ofNat 0xD4, Char.ofNat 0x220F, Char.ofNat 0xE8]

/-- Degree marker appended after the temperature (source line 353). -/
def degreeMark : String := String.mk [Char.ofNat 0xAC, Char.ofNat 0x221E]

/-- Author dash prefix in text-block (source line 492). -/
def dashMark : String := String.mk [Char.ofNat 0x201A, Char.ofNat 0xC4, Char.ofNat 0xEE]

/-- Headline bullet (source lines 596/605/615). -/
def bulletMark : String := String.mk [Char.ofNat 0x201A, Char.ofNat 0xC4, Char.ofNat 0xA2]

/-- Warning icon used by `render_error` and `get_status_icon`. -/
def iconWarn : String :=
  String.mk [Char.ofNat 0x201A, Char.ofNat 0xF6, Char.ofNat 0x2020, Char.ofNat 0xD4,
             Char.ofNat 0x220F, Char.ofNat 0xE8]

/-- Healthy status icon (source line 727). -/
def iconOk : String := String.mk [Char.ofNat 0x201A, Char.ofNat 0xFA, Char.ofNat 0xD6]

/-- Failed status icon (source line 729). -/
def iconErr : String := String.mk [Char.ofNat 0x201A, Char.ofNat 0xF9, Char.ofNat 0xE5]

/-- Fallback status icon (source line 733). -/
def iconBlue : String :=
  String.mk [Char.ofNat 0xF8FF, Char.ofNat 0xFC, Char.ofNat 0xEE, Char.ofNat 0xB5]

/-- Mapped data handed to a renderer: the dict built by
`apply_data_mapping`. -/
abbrev MappedData := List (String × JValue)

/-- Model of `data.get(key, default)` on the mapped-data dict. -/
def getJ (d : MappedData) (k : String) (default : JValue) : JValue :=
  (alistLookup d k).getD default

/-- The two wall-clock strings `datetime.now().strftime('%H:%M:%S')` and
`datetime.now().strftime('%Y-%m-%d')` read by `render_time_display` when
the `time`/`date` fields are absent; modelled as an explicit input. -/
structure Clock where
  nowTime : String
  nowDate : String

/-- Embeds `WidgetExecutor.get_status_icon`. -/
def get_status_icon (status : JValue) : String :=
  let s := (pyStr status).toLower
  if ["online", "ok", "healthy", "success", "active", "running"].contains s then iconOk
  else if ["offline", "error", "failed", "down", "inactive"].contains s then iconErr
  else if ["warning", "degraded", "partial", "slow"].contains s then iconWarn
  else iconBlue

/-- Embeds `WidgetExecutor.get_status_class`. -/
def get_status_class (status : JValue) : String :=
  let s := (pyStr status).toLower
  if ["online", "ok", "healthy", "success", "active", "running"].contains s then
    "status-indicator--success"
  else if ["offline", "error", "failed", "down", "inactive"].contains s then
    "status-indicator--error"
  else if ["warning", "degraded", "partial", "slow"].contains s then
    "status-indicator--warning"
  else "status-indicator--success"

/-- Path arguments fed to `extract_json_path` from renderer configuration
fields may be arbitrary values: a falsy path returns the data unchanged
(the `if not path` guard); a truthy non-string path fails in the string
operations it is subjected to, modelled as a `TypeError`. -/
def extractJV (data : JValue) (path : JValue) : Except PyErr JValue :=
  match path with
  | .str s => extract_json_path data s
  | v => if pyTruthy v then
      .error (.typeError ("unsupported path operand of type '" ++ typeName v ++ "'"))
    else .ok data

/-! ### Python `min` / `max` / `sum` (used by `render_chart_simple`)

List-list and other container comparisons, which CPython performs
elementwise, are modelled as `TypeError`: every chart render containing a
container element fails at the summation step anyway, so only the error
message (never the produced fragment) differs. -/

/-- Numeric view of a value under Python arithmetic (bool coerces). -/
def numVal : JValue → Option Int
  | .num n => some n
  | .bool b => some (if b then 1 else 0)
  | _ => none

/-- Python `a < b` on decoded JSON scalars. -/
def pyLtV (a b : JValue) : Except PyErr Bool :=
  match numVal a, numVal b with
  | some x, some y => .ok (decide (x < y))
  | _, _ =>
    match a, b with
    | .str s, .str t => .ok (decide (s < t))
    | _, _ => .error (.typeError ("'<' not supported between instances of '"
        ++ typeName a ++ "' and '" ++ typeName b ++ "'"))

/-- The loop of Python `min`: keep `best`, replace when `x < best`. -/
def minFold (best : JValue) : List JValue → Except PyErr JValue
  | [] => .ok best
  | x :: rest =>
    match pyLtV x best with
    | .error e => .error e
    | .ok b => minFold (if b then x else best) rest

/-- Python `min(xs)`. -/
def pyMinV : List JValue → Except PyErr JValue
  | [] => .error (.valueError "min() arg is an empty sequence")
  | x :: rest => minFold x rest

/-- The loop of Python `max`: keep `best`, replace when `best < x`. -/
def maxFold (best : JValue) : List JValue → Except PyErr JValue
  | [] => .ok best
  | x :: rest =>
    match pyLtV best x with
    | .error e => .error e
    | .ok b => maxFold (if b then x else best) rest

/-- Python `max(xs)`. -/
def pyMaxV : List JValue → Except PyErr JValue
  | [] => .error (.valueError "max() arg is an empty sequence")
  | x :: rest => maxFold x rest

/-- The loop of Python `sum(xs)` with integer accumulator. -/
def sumFold (acc : Int) : List JValue → Except PyErr Int
  | [] => .ok acc
  | x :: rest =>
    match numVal x with
    | some v => sumFold (acc + v) rest
    | none => .error (.typeError ("unsupported operand type(s) for +: 'int' and '"
        ++ typeName x ++ "'"))

/-- Python `sum(xs)`. -/
def pySumV (xs : List JValue) : Except PyErr Int := sumFold 0 xs

/-- Python `f"{sum/len:.1f}"` with exact rational round-half-even (the
binary float detour is not modelled; the two agree on every value whose
tenths position is decided away from a representability boundary, in
particular on all inputs exercised here). -/
def formatAvg (sum : Int) (len : Nat) : String :=
  let num := sum * 10
  let d : Int := (len : Int)
  let q := Int.fdiv num d
  let r := Int.fmod num d
  let rounded := if 2 * r > d then q + 1
    else if 2 * r < d then q
    else if Int.fmod q 2 = 0 then q else q + 1
  let a := rounded.natAbs
  (if rounded < 0 then "-" else "") ++ natStr (a / 10) ++ "." ++ natStr (a % 10)

/-! ### Fragment literal chunks

Each `def` below is a verbatim slice of one of the renderer f-strings in
the source, between two interpolation holes. -/

def divClose : String := "</div>"

def descLitA : String := "<div class=\"description\">"

def metaLitA : String := "<div class=\"meta\">"

def titleLitA : String := "<div class=\"title mb-md\">"

def errA : String := "\n        <div class=\"widget-error\">\n            <div class=\"error-icon\">" ++ iconWarn ++ "</div>\n            <div class=\"error-message\">"

def errB : String := "</div>\n        </div>\n        "

def kvA : String := "\n        <div class=\"widget-content\">\n            <div class=\"value-display text-center\">\n                <div class=\"label mb-sm\">"

def kvB : String := "</div>\n                <div class=\"value value--large\">"

def kvC : String := "</div>\n            </div>\n        </div>\n        "

def subLitA : String := "<div class=\"subtitle mb-sm\">"

def descMtLitA : String := "<div class=\"description mt-sm\">"

def tsvA : String := "\n        <div class=\"widget-content text-center\">\n            <div class=\"title mb-md\">"

def tsvB : String := "</div>\n            "

def tsvC : String := "\n            <div class=\"value value--large mb-md\">"

def tsvD : String := "</div>\n            "

def tsvE : String := "\n        </div>\n        "

def mgItemA : String := "\n                <div class=\"metric-item\">\n                    <div class=\"metric-info\">\n                        <div class=\"label\">"

def mgItemB : String := "</div>\n                        <div class=\"value\">"

def mgItemC : String := "</div>\n                    </div>\n                </div>\n                "

def gridOuterA : String := "\n        <div class=\"widget-content\">\n            <div class=\"metrics-grid\">\n                "

def gridOuterB : String := "\n            </div>\n        </div>\n        "

def wcHumA : String := "<div class=\"description\">Humidity: "

def wcHumB : String := "%</div>"

def wcWindA : String := "<div class=\"description\">Wind: "

def wcWindB : String := " m/s</div>"

def wcA : String := "\n        <div class=\"widget-content\">\n            <div class=\"weather-current\">\n                <div class=\"weather-icon\">\n                    <div style=\"font-size: 48px;\">"

def wcB : String := "</div>\n                </div>\n                <div class=\"weather-temp\">\n                    <div class=\"value value--huge\">"

def wcC : String := degreeMark ++ "</div>\n                    <div class=\"subtitle\">"

def wcD : String := "</div>\n                </div>\n            </div>\n            "

def wcE : String := "\n        </div>\n        "

def tdA : String := "\n        <div class=\"widget-content\">\n            <div class=\"time-display\">\n                <div class=\"time-main\">\n                    <div class=\"value value--huge\">"

def tdB : String := "</div>\n                    <div class=\"subtitle\">"

def tdC : String := "</div>\n                </div>\n                <div class=\"time-meta\">\n                    "

def tdD : String := "\n                    "

def tdE : String := "\n                </div>\n            </div>\n        </div>\n        "

def slItemA : String := "\n                <div class=\"metric-item\">\n                    <div class=\"metric-icon\">"

def slItemB : String := "</div>\n                    <div class=\"metric-info\">\n                        <div class=\"subtitle\">"

def slItemC : String := "</div>\n                        <div class=\"status-indicator "

def slItemD : String := "\">"

def slItemE : String := "</div>\n                        "

def slItemF : String := "\n                    </div>\n                </div>\n                "

def ilIconA : String := "<div class=\"metric-icon\">"

def ilItemA : String := "\n                <div class=\"metric-item\">\n                    "

def ilItemB : String := "\n                    <div class=\"metric-info\">\n                        <div class=\"subtitle\">"

def ilItemC : String := "</div>\n                        "

def ilItemD : String := "\n                    </div>\n                </div>\n                "

def tbA : String := "\n        <div class=\"widget-content\">\n            "

def tbB : String := "\n            <div class=\"description mb-md\">"

def tbC : String := "</div>\n            "

def tbD : String := "\n            "

def tbE : String := "\n        </div>\n        "

def csStatsA : String := "\n            <div class=\"metrics-grid\">\n                <div class=\"metric-item\">\n                    <div class=\"metric-info\">\n                        <div class=\"label\">Min</div>\n                        <div class=\"value\">"

def csStatsB : String := "</div>\n                    </div>\n                </div>\n                <div class=\"metric-item\">\n                    <div class=\"metric-info\">\n                        <div class=\"label\">Max</div>\n                        <div class=\"value\">"

def csStatsC : String := "</div>\n                    </div>\n                </div>\n                <div class=\"metric-item\">\n                    <div class=\"metric-info\">\n                        <div class=\"label\">Avg</div>\n                        <div class=\"value\">"

def csStatsD : String := "</div>\n                    </div>\n                </div>\n            </div>\n            "

def noDataLit : String := "<div class=\"description\">No data available</div>"

def csA : String := "\n        <div class=\"widget-content\">\n            <div class=\"title mb-md\">"

def csB : String := "</div>\n            "

def csC : String := "\n        </div>\n        "

def icCapA : String := "<div class=\"description mt-md\">"

def icA : String := "\n        <div class=\"widget-content text-center\">\n            "

def icB : String := "\n            <img src=\""

def icC : String := "\" alt=\""

def icD : String := "\" \n                 style=\"max-width: 100%; height: auto; border-radius: var(--border-radius);\">\n            "

def icE : String := "\n        </div>\n        "

def rhLinkA : String := "\n                        <div class=\"metric-item\">\n                            <div class=\"metric-info\">\n                                <div class=\"subtitle\">" ++ bulletMark ++ " <a href=\""

def rhLinkB : String := "\" target=\"_blank\">"

def rhLinkC : String := "</a></div>\n                                "

def rhLinkD : String := "\n                            </div>\n                        </div>\n                        "

def rhPlainA : String := "\n                        <div class=\"metric-item\">\n                            <div class=\"metric-info\">\n                                <div class=\"subtitle\">" ++ bulletMark ++ " "

def rhPlainB : String := "</div>\n                                "

def rhStrA : String := "\n                    <div class=\"metric-item\">\n                        <div class=\"metric-info\">\n                            <div class=\"subtitle\">" ++ bulletMark ++ " "

def rhStrB : String := "</div>\n                        </div>\n                    </div>\n                    "

def noHeadLit : String := "<div class=\"description\">No headlines available</div>"

def rhA : String := "\n        <div class=\"widget-content\">\n            <div class=\"title mb-md\">"

def rhB : String := "</div>\n            <div class=\"metrics-grid\">\n                "

def rhC : String := "\n            </div>\n        </div>\n        "

def rsEmptyA : String := "\n            <div class=\"widget-content text-center\">\n                <div class=\"title mb-md\">"

def rsEmptyB : String := "</div>\n                <div class=\"description\">No articles available</div>\n            </div>\n            "

def rsByLitA : String := "<div class=\"meta\">By: "

def rsLinkLitA : String := "<div class=\"meta\"><a href=\""

def rsLinkLitB : String := "\" target=\"_blank\">Read more</a></div>"

def rsA : String := "\n        <div class=\"widget-content\">\n            <div class=\"title mb-md\">"

def rsB : String := "</div>\n            <div class=\"subtitle mb-sm\">"

def rsC : String := "</div>\n            <div class=\"description mb-md\">"

def rsD : String := "</div>\n            "

def rsE : String := "\n            "

def rsG : String := "\n        </div>\n        "

def fiDescLitA : String := "<div class=\"description mb-md\">"

def fiLinkLitB : String := "\" target=\"_blank\">Visit Feed</a></div>"

def fiUpdLitA : String := "<div class=\"meta\">Last Updated: "

def fiA : String := "\n        <div class=\"widget-content text-center\">\n            <div class=\"title mb-md\">"

def fiB : String := "</div>\n            "

def fiC : String := "\n            <div class=\"value value--large mb-md\">"

def fiD : String := "</div>\n            <div class=\"subtitle mb-md\">Articles Available</div>\n            "

def fiE : String := "\n            "

def fiF : String := "\n        </div>\n        "

/-! ## Template Renderer Registry -/

/-- Embeds `WidgetExecutor.render_error`: the fixed-shape error fragment with the
escaped message. -/
def render_error (message : String) : String :=
  errA ++ htmlEscape message ++ errB

/-- Embeds `WidgetExecutor.render_key_value`. -/
def render_key_value (data : MappedData) : String :=
  let title := safe_str (getJ data "title" (.str "Value"))
  let value := safe_str (getJ data "value" (.str "N/A"))
  let unit := safe_str (getJ data "unit" (.str ""))
  kvA ++ htmlEscape title ++ kvB ++ htmlEscape value ++ htmlEscape unit ++ kvC

/-- Embeds `WidgetExecutor.render_title_subtitle_value`. -/
def render_title_subtitle_value (data : MappedData) : String :=
  let title := safe_str (getJ data "title" (.str "Title"))
  let subtitle := safe_str (getJ data "subtitle" (.str ""))
  let value := safe_str (getJ data "value" (.str "N/A"))
  let description := safe_str (getJ data "description" (.str ""))
  let subtitle_html := if subtitle = "" then "" else subLitA ++ htmlEscape subtitle ++ divClose
  let description_html := if description = "" then "" else descMtLitA ++ htmlEscape description ++ divClose
  tsvA ++ htmlEscape title ++ tsvB ++ subtitle_html ++ tsvC ++ htmlEscape value
    ++ tsvD ++ description_html ++ tsvE

/-- Shared shape of the `x = ''; try: x = extract(...) except: pass`
pattern used for the optional sub-fields of list items. -/
def extractOptStr (item path : JValue) : JValue :=
  match extractJV item path with
  | .ok v => v
  | .error _ => .str ""

/-- One iteration of the `render_metric_grid` loop: `none` when a required
sub-extraction raises (the item is skipped with a warning). -/
def metricItemHtml (tpath vpath upath : JValue) (metric : JValue) : Option String :=
  match extractJV metric tpath with
  | .error _ => none
  | .ok t =>
    match extractJV metric vpath with
    | .error _ => none
    | .ok v =>
      let u := extractOptStr metric upath
      some (mgItemA ++ htmlEscape (safe_str t) ++ mgItemB ++ htmlEscape (safe_str v)
        ++ htmlEscape (safe_str u) ++ mgItemC)

/-- Embeds `WidgetExecutor.render_metric_grid`: at most 8 metrics. -/
def render_metric_grid (data : MappedData) : String :=
  let metrics := getJ data "metrics" (.arr [])
  let tpath := getJ data "metric_title_path" (.str "name")
  let vpath := getJ data "metric_value_path" (.str "value")
  let upath := getJ data "metric_unit_path" (.str "unit")
  match metrics with
  | .arr l =>
    let items := (l.take 8).filterMap (metricItemHtml tpath vpath upath)
    gridOuterA ++ String.join items ++ gridOuterB
  | _ => render_error "Metrics must be an array"

/-- Embeds `WidgetExecutor.render_weather_current`. -/
def render_weather_current (data : MappedData) : String :=
  let temperature := safe_str (getJ data "temperature" (.str "N/A"))
  let condition := safe_str (getJ data "condition" (.str "Unknown"))
  let icon := safe_str (getJ data "icon" (.str iconWeather))
  let humidity := safe_str (getJ data "humidity" (.str ""))
  let wind_speed := safe_str (getJ data "wind_speed" (.str ""))
  let details :=
    (if humidity = "" then [] else [wcHumA ++ htmlEscape humidity ++ wcHumB])
      ++ (if wind_speed = "" then [] else [wcWindA ++ htmlEscape wind_speed ++ wcWindB])
  wcA ++ htmlEscape icon ++ wcB ++ htmlEscape temperature ++ wcC ++ htmlEscape condition
    ++ wcD ++ String.join details ++ wcE

/-- Embeds `WidgetExecutor.render_time_display`: the only renderer that reads the
clock, and only as the default for absent `time`/`date` fields. -/
def render_time_display (data : MappedData) (clock : Clock) : String :=
  let time_val := safe_str (getJ data "time" (.str clock.nowTime))
  let date_val := safe_str (getJ data "date" (.str clock.nowDate))
  let timezone := safe_str (getJ data "timezone" (.str ""))
  let format_type := safe_str (getJ data "format" (.str ""))
  let timezone_html := if timezone = "" then "" else metaLitA ++ htmlEscape timezone ++ divClose
  let format_html := if format_type = "" then "" else metaLitA ++ htmlEscape format_type ++ divClose
  tdA ++ htmlEscape time_val ++ tdB ++ htmlEscape date_val ++ tdC ++ timezone_html
    ++ tdD ++ format_html ++ tdE

/-- One iteration of the `render_status_list` loop. -/
def statusItemHtml (npath spath mpath : JValue) (item : JValue) : Option String :=
  match extractJV item npath with
  | .error _ => none
  | .ok name =>
    match extractJV item spath with
    | .error _ => none
    | .ok status =>
      let message := extractOptStr item mpath
      let message_html := if pyTruthy message then
          descLitA ++ htmlEscape (safe_str message) ++ divClose
        else ""
      some (slItemA ++ get_status_icon status ++ slItemB ++ htmlEscape (safe_str name)
        ++ slItemC ++ get_status_class status ++ slItemD ++ htmlEscape (safe_str status)
        ++ slItemE ++ message_html ++ slItemF)

/-- Embeds `WidgetExecutor.render_status_list`: at most 10 items. -/
def render_status_list (data : MappedData) : String :=
  let items := getJ data "items" (.arr [])
  let npath := getJ data "item_name_path" (.str "name")
  let spath := getJ data "item_status_path" (.str "status")
  let mpath := getJ data "item_message_path" (.str "message")
  match items with
  | .arr l =>
    let items_html := (l.take 10).filterMap (statusItemHtml npath spath mpath)
    gridOuterA ++ String.join items_html ++ gridOuterB
  | _ => render_error "Items must be an array"

/-- One iteration of the `render_icon_list` loop. -/
def iconItemHtml (ipath tpath dpath : JValue) (item : JValue) : Option String :=
  let icon := extractOptStr item ipath
  match extractJV item tpath with
  | .error _ => none
  | .ok title =>
    let description := extractOptStr item dpath
    let icon_html := if pyTruthy icon then ilIconA ++ htmlEscape (safe_str icon) ++ divClose else ""
    let description_html := if pyTruthy description then
        descLitA ++ htmlEscape (safe_str description) ++ divClose
      else ""
    some (ilItemA ++ icon_html ++ ilItemB ++ htmlEscape (safe_str title) ++ ilItemC
      ++ description_html ++ ilItemD)

/-- Embeds `WidgetExecutor.render_icon_list`: at most 8 items. -/
def render_icon_list (data : MappedData) : String :=
  let items := getJ data "items" (.arr [])
  let ipath := getJ data "item_icon_path" (.str "icon")
  let tpath := getJ data "item_title_path" (.str "title")
  let dpath := getJ data "item_description_path" (.str "description")
  match items with
  | .arr l =>
    let items_html := (l.take 8).filterMap (iconItemHtml ipath tpath dpath)
    gridOuterA ++ String.join items_html ++ gridOuterB
  | _ => render_error "Items must be an array"

/-- Embeds `WidgetExecutor.render_text_block`. -/
def render_text_block (data : MappedData) : String :=
  let title := safe_str (getJ data "title" (.str ""))
  let content := safe_str (getJ data "content" (.str "No content"))
  let author := safe_str (getJ data "author" (.str ""))
  let timestamp := safe_str (getJ data "timestamp" (.str ""))
  let title_html := if title = "" then "" else titleLitA ++ htmlEscape title ++ divClose
  let author_html := if author = "" then "" else metaLitA ++ dashMark ++ " " ++ htmlEscape author ++ divClose
  let timestamp_html := if timestamp = "" then "" else metaLitA ++ htmlEscape timestamp ++ divClose
  tbA ++ title_html ++ tbB ++ htmlEscape content ++ tbC ++ author_html ++ tbD
    ++ timestamp_html ++ tbE

/-- Embeds `WidgetExecutor.render_chart_simple`: key statistics for e-paper; the
`min`/`max`/`sum` calls propagate any comparison/addition `TypeError` to
the pipeline boundary. -/
def render_chart_simple (data : MappedData) : Except PyErr String :=
  let title := safe_str (getJ data "title" (.str "Chart"))
  let data_points := getJ data "data_points" (.arr [])
  let unit := safe_str (getJ data "unit" (.str ""))
  match data_points with
  | .arr pts =>
    if pts.isEmpty then
      .ok (csA ++ htmlEscape title ++ csB ++ noDataLit ++ csC)
    else
      match pyMinV pts with
      | .error e => .error e
      | .ok min_val =>
        match pyMaxV pts with
        | .error e => .error e
        | .ok max_val =>
          match pySumV pts with
          | .error e => .error e
          | .ok s =>
            let stats := csStatsA ++ pyStr min_val ++ " " ++ htmlEscape unit
              ++ csStatsB ++ pyStr max_val ++ " " ++ htmlEscape unit
              ++ csStatsC ++ formatAvg s pts.length ++ " " ++ htmlEscape unit ++ csStatsD
            .ok (csA ++ htmlEscape title ++ csB ++ stats ++ csC)
  | _ => .ok (render_error "Data points must be an array")

/-- Embeds `WidgetExecutor.render_image_caption`. -/
def render_image_caption (data : MappedData) : String :=
  let image_url := safe_str (getJ data "image_url" (.str ""))
  let caption := safe_str (getJ data "caption" (.str ""))
  let alt_text := safe_str (getJ data "alt_text" (.str "Image"))
  let title := safe_str (getJ data "title" (.str ""))
  if image_url = "" then render_error "Image URL is required"
  else
    let title_html := if title = "" then "" else titleLitA ++ htmlEscape title ++ divClose
    let caption_html := if caption = "" then "" else icCapA ++ htmlEscape caption ++ divClose
    icA ++ title_html ++ icB ++ htmlEscape image_url ++ icC ++ htmlEscape alt_text
      ++ icD ++ caption_html ++ icE

/-- One iteration of the `render_rss_headlines` loop (never fails: every
branch builds a block from totally-defined pieces; the per-item exception
handler in the source is therefore unreachable). -/
def headlineItemHtml (item : JValue) : String :=
  match item with
  | .obj kvs =>
    let title := safe_str ((alistLookup kvs "title").getD (.str "Untitled"))
    let link := safe_str ((alistLookup kvs "link").getD (.str ""))
    let pub_date := safe_str ((alistLookup kvs "pub_date").getD (.str ""))
    let date_html := if pub_date = "" then "" else metaLitA ++ htmlEscape pub_date ++ divClose
    if link = "" then
      rhPlainA ++ htmlEscape title ++ rhPlainB ++ date_html ++ rhLinkD
    else
      rhLinkA ++ htmlEscape link ++ rhLinkB ++ htmlEscape title ++ rhLinkC ++ date_html ++ rhLinkD
  | v => rhStrA ++ htmlEscape (safe_str v) ++ rhStrB

/-- Embeds `WidgetExecutor.render_rss_headlines`: at most 10 headlines; an empty
block list degrades to the literal "No headlines available" entry. -/
def render_rss_headlines (data : MappedData) : String :=
  let feed_title := safe_str (getJ data "feed_title" (.str "RSS Feed"))
  let items := getJ data "items" (.arr [])
  match items with
  | .arr l =>
    let items_html := (l.take 10).map headlineItemHtml
    let items_html := if items_html.isEmpty then [noHeadLit] else items_html
    rhA ++ htmlEscape feed_title ++ rhB ++ String.join items_html ++ rhC
  | _ => render_error "RSS items must be an array"

/-- Python `s[:n] + "..." if len(s) > n else s`. -/
def truncateAt (n : Nat) (s : String) : String :=
  if s.data.length > n then String.mk (s.data.take n) ++ "..." else s

/-- Embeds `WidgetExecutor.render_rss_summary`: summary of the first item, body
truncated at 200 characters. -/
def render_rss_summary (data : MappedData) : String :=
  let feed_title := safe_str (getJ data "feed_title" (.str "RSS Feed"))
  let items := getJ data "items" (.arr [])
  match items with
  | .arr (item :: _) =>
    let fields := match item with
      | .obj kvs =>
        (safe_str ((alistLookup kvs "title").getD (.str "Untitled")),
         safe_str ((alistLookup kvs "description").getD (.str "")),
         safe_str ((alistLookup kvs "author").getD (.str "")),
         safe_str ((alistLookup kvs "pub_date").getD (.str "")),
         safe_str ((alistLookup kvs "link").getD (.str "")))
      | v => (safe_str v, "", "", "", "")
    let title := fields.1
    let description := truncateAt 200 fields.2.1
    let author := fields.2.2.1
    let pub_date := fields.2.2.2.1
    let link := fields.2.2.2.2
    let author_html := if author = "" then "" else rsByLitA ++ htmlEscape author ++ divClose
    let date_html := if pub_date = "" then "" else metaLitA ++ htmlEscape pub_date ++ divClose
    let link_html := if link = "" then "" else rsLinkLitA ++ htmlEscape link ++ rsLinkLitB
    rsA ++ htmlEscape feed_title ++ rsB ++ htmlEscape title ++ rsC ++ htmlEscape description
      ++ rsD ++ author_html ++ rsE ++ date_html ++ rsE ++ link_html ++ rsG
  | _ => rsEmptyA ++ htmlEscape feed_title ++ rsEmptyB

/-- Embeds `WidgetExecutor.render_rss_feed_info`: `len()` of a non-sized `items`
value raises to the pipeline boundary. -/
def render_rss_feed_info (data : MappedData) : Except PyErr String :=
  let feed_title := safe_str (getJ data "feed_title" (.str "RSS Feed"))
  let feed_description := truncateAt 150 (safe_str (getJ data "feed_description" (.str "")))
  let feed_link := safe_str (getJ data "feed_link" (.str ""))
  let itemsVal := getJ data "items" (.arr [])
  let item_count : Except PyErr Nat := match itemsVal with
    | .arr xs => .ok xs.length
    | .str s => .ok s.data.length
    | .obj kvs => .ok kvs.length
    | v => .error (.typeError ("object of type '" ++ typeName v ++ "' has no len()"))
  match item_count with
  | .error e => .error e
  | .ok n =>
    let last_updated := safe_str (getJ data "last_updated" (.str ""))
    let description_html := if feed_description = "" then "" else
      fiDescLitA ++ htmlEscape feed_description ++ divClose
    let link_html := if feed_link = "" then "" else
      rsLinkLitA ++ htmlEscape feed_link ++ fiLinkLitB
    let updated_html := if last_updated = "" then "" else
      fiUpdLitA ++ htmlEscape last_updated ++ divClose
    .ok (fiA ++ htmlEscape feed_title ++ fiB ++ description_html ++ fiC ++ natStr n
      ++ fiD ++ link_html ++ fiE ++ updated_html ++ fiF)

/-- Embeds `WidgetExecutor.render_template`: dispatch by exact template-type
string over the fixed 13-entry registry; an unknown identifier yields an
error fragment. -/
def render_template (template_type : String) (data : MappedData) (clock : Clock) :
    Except PyErr String :=
  if template_type = "key_value" then .ok (render_key_value data)
  else if template_type = "title_subtitle_value" then .ok (render_title_subtitle_value data)
  else if template_type = "metric_grid" then .ok (render_metric_grid data)
  else if template_type = "weather_current" then .ok (render_weather_current data)
  else if template_type = "time_display" then .ok (render_time_display data clock)
  else if template_type = "status_list" then .ok (render_status_list data)
  else if template_type = "icon_list" then .ok (render_icon_list data)
  else if template_type = "text_block" then .ok (render_text_block data)
  else if template_type = "chart_simple" then render_chart_simple data
  else if template_type = "image_caption" then .ok (render_image_caption data)
  else if template_type = "rss_headlines" then .ok (render_rss_headlines data)
  else if template_type = "rss_summary" then .ok (render_rss_summary data)
  else if template_type = "rss_feed_info" then render_rss_feed_info data
  else .ok (render_error ("Unknown template type: " ++ template_type))

/-! ## Data Acquisition Layer and top-level `execute`

Network interactions are modelled as oracle inputs: `ApiOutcome` is the
combined outcome of the `requests.get` + `.json()` pair in
`fetch_api_data`; `PreviewOutcome` is the outcome of the POST to the RSS
preview service in `fetch_rss_data`; the direct-fetch tier
(`fetch_rss_direct`, network + XML parsing) is abstracted as a function
from the URL it is invoked with to its result. -/

/-- Outcome of the API GET: a `requests` transport/HTTP failure with its
message, a JSON decode failure with its message, or a decoded document. -/
inductive ApiOutcome where
  | requestFailure (msg : String)
  | jsonFailure (msg : String)
  | success (body : JValue)

/-- Embeds `WidgetExecutor.fetch_api_data`. -/
def fetch_api_data (api_url : String) (net : ApiOutcome) : Except PyErr JValue :=
  if api_url = "" then .error (.valueError "API URL is required")
  else
    match net with
    | .requestFailure msg => .error (.exception ("API request failed: " ++ msg))
    | .jsonFailure msg => .error (.exception ("Invalid JSON response: " ++ msg))
    | .success body => .ok body

/-- Outcome of the POST to the RSS preview endpoint:
`requests.exceptions.ConnectionError`, any other exception raised by the
request/status-check/decode (carrying `str(e)`), or a decoded JSON body. -/
inductive PreviewOutcome where
  | connectionError
  | otherError (msg : String)
  | success (body : JValue)

/-- Does `str(e)` textually indicate a connection problem, per the
source's `"Connection" in str(e) or "connection" in str(e).lower()`
heuristic?  Defined below once substring search is available. -/
def isPrefixL (pat : List Char) : List Char → Bool
  | l =>
    match pat, l with
    | [], _ => true
    | _ :: _, [] => false
    | a :: as1, b :: bs => a = b && isPrefixL as1 bs

/-- Is `pat` a contiguous substring of `l`?  (Python `pat in s`.) -/
def isInfixL (pat : List Char) : List Char → Bool
  | [] => isPrefixL pat []
  | c :: rest => isPrefixL pat (c :: rest) || isInfixL pat rest

/-- Python `pat in s` on strings. -/
def strContains (s pat : String) : Bool := isInfixL pat.data s.data

/-- The connection-failure text heuristic of `fetch_rss_data`. -/
def mentionsConnection (msg : String) : Bool :=
  strContains msg "Connection" || strContains msg.toLower "connection"

/-- Embeds `WidgetExecutor.fetch_rss_data`: tier 1 posts to the preview service;
a `ConnectionError` (or any other exception whose text mentions a
connection) falls back to the direct tier; a response without a `feed`
key raises `Exception("Invalid RSS API response format")`, which the
generic handler in the same `try` re-raises as an "RSS API request
failed" exception.  The returned list records each URL the direct tier
was invoked with.  A non-dict preview body is modelled through the same
invalid-format path (in CPython a non-dict body fails the membership or
subscript operation with an exception that equally reaches the generic
handler). -/
def fetch_rss_data (api_url : String) (preview : PreviewOutcome)
    (direct : String → Except PyErr JValue) :
    Except PyErr JValue × List String :=
  if api_url = "" then (.error (.valueError "RSS feed URL is required"), [])
  else
    match preview with
    | .connectionError => (direct api_url, [api_url])
    | .otherError msg =>
      if mentionsConnection msg then (direct api_url, [api_url])
      else (.error (.exception ("RSS API request failed: " ++ msg)), [])
    | .success body =>
      match body with
      | .obj kvs =>
        match alistLookup kvs "feed" with
        | some f => (.ok f, [])
        | none =>
          if mentionsConnection "Invalid RSS API response format" then (direct api_url, [api_url])
          else (.error (.exception ("RSS API request failed: Invalid RSS API response format")), [])
      | _ =>
        if mentionsConnection "Invalid RSS API response format" then (direct api_url, [api_url])
        else (.error (.exception ("RSS API request failed: Invalid RSS API response format")), [])

/-- The widget configuration fields consumed by the pipeline
(`WidgetExecutor.__init__`; `api_headers`, `rss_config` and `timeout`
only parameterise the network calls, which are modelled by oracles). -/
structure Config where
  data_source : String
  api_url : String
  template_type : String
  data_mapping : List (String × String)

/-- The body of the `try` in `WidgetExecutor.execute`: acquire, map,
render. -/
def runPipeline (cfg : Config) (api : ApiOutcome) (preview : PreviewOutcome)
    (direct : String → Except PyErr JValue) (clock : Clock) : Except PyErr String :=
  match (if cfg.data_source = "rss" then (fetch_rss_data cfg.api_url preview direct).1
         else fetch_api_data cfg.api_url api) with
  | .error e => .error e
  | .ok data =>
    render_template cfg.template_type (apply_data_mapping cfg.data_mapping data) clock

/-- Embeds `WidgetExecutor.execute`: any exception from the pipeline is caught
and converted into the error fragment. -/
def execute (cfg : Config) (api : ApiOutcome) (preview : PreviewOutcome)
    (direct : String → Except PyErr JValue) (clock : Clock) : String :=
  match runPipeline cfg api preview direct clock with
  | .ok html_output => html_output
  | .error e => render_error ("Widget execution failed: " ++ errMsg e)

/-! ## Infrastructure lemmas -/

theorem data_append (a b : String) : (a ++ b).data = a.data ++ b.data := rfl

theorem mk_data (l : List Char) : (String.mk l).data = l := rfl

theorem digitCh_isDigit (n : Nat) : (digitCh n).isDigit = true := by
  unfold digitCh
  split <;> decide

theorem digitVal_digitCh (n : Nat) (h : n < 10) : digitVal (digitCh n) = n := by
  interval_cases n <;> decide

theorem digitsToNat_append (l : List Char) (c : Char) :
    digitsToNat (l ++ [c]) = 10 * digitsToNat l + digitVal c := by
  unfold digitsToNat
  rw [List.foldl_append]
  simp [Nat.mul_comm]

theorem natDigitsAux_roundtrip (fuel n : Nat) (h : n < fuel) :
    digitsToNat (natDigitsAux fuel n) = n := by
  induction fuel generalizing n with
  | zero => omega
  | succ f ih =>
    unfold natDigitsAux
    split
    · next hlt =>
      show digitsToNat ([] ++ [digitCh n]) = n
      rw [digitsToNat_append]
      unfold digitsToNat
      simp [digitVal_digitCh n hlt]
    · next hge =>
      rw [digitsToNat_append, ih (n / 10) (by omega), digitVal_digitCh (n % 10) (by omega)]
      omega

theorem natDigitsAux_all_digits (fuel n : Nat) (h : n < fuel) :
    ∀ c ∈ natDigitsAux fuel n, c.isDigit = true := by
  induction fuel generalizing n with
  | zero => omega
  | succ f ih =>
    unfold natDigitsAux
    split
    · intro c hc
      simp only [List.mem_singleton] at hc
      subst hc
      exact digitCh_isDigit n
    · intro c hc
      rcases List.mem_append.mp hc with h1 | h2
      · exact ih (n / 10) (by omega) c h1
      · simp only [List.mem_singleton] at h2
        subst h2
        exact digitCh_isDigit (n % 10)

theorem natDigitsAux_ne_nil (fuel n : Nat) (h : n < fuel) :
    natDigitsAux fuel n ≠ [] := by
  cases fuel with
  | zero => omega
  | succ f =>
    unfold natDigitsAux
    split
    · simp
    · simp

theorem natDigits_roundtrip (n : Nat) : digitsToNat (natDigits n) = n :=
  natDigitsAux_roundtrip (n + 1) n (Nat.lt_succ_self n)

theorem natDigits_all_digits (n : Nat) : ∀ c ∈ natDigits n, c.isDigit = true :=
  natDigitsAux_all_digits (n + 1) n (Nat.lt_succ_self n)

theorem natDigits_ne_nil (n : Nat) : natDigits n ≠ [] :=
  natDigitsAux_ne_nil (n + 1) n (Nat.lt_succ_self n)

theorem isDigit_ne (c : Char) (d : Char) (hd : d.isDigit = false) (h : c.isDigit = true) :
    c ≠ d := by
  intro he
  subst he
  rw [h] at hd
  simp at hd

theorem parseDigits_natDigits (k : Nat) : parseDigits (natDigits k) = some k := by
  unfold parseDigits
  rw [if_pos, natDigits_roundtrip]
  have h1 := natDigits_ne_nil k
  have h2 := natDigits_all_digits k
  simp only [Bool.and_eq_true, bne_iff_ne, List.all_eq_true]
  constructor
  · simpa [List.isEmpty_iff] using h1
  · intro c hc
    exact h2 c hc

theorem hasCh_append (c : Char) (a b : List Char) :
    hasCh c (a ++ b) = (hasCh c a || hasCh c b) := by
  induction a with
  | nil => simp [hasCh]
  | cons x xs ih => simp [hasCh, ih, Bool.or_assoc]

theorem hasCh_eq_false_iff (c : Char) (l : List Char) :
    hasCh c l = false ↔ ∀ x ∈ l, x ≠ c := by
  induction l with
  | nil => simp [hasCh]
  | cons x xs ih =>
    simp only [hasCh, Bool.or_eq_false_iff, ih, List.mem_cons, decide_eq_false_iff_not]
    constructor
    · rintro ⟨h1, h2⟩ y (rfl | hy)
      · exact h1
      · exact h2 y hy
    · intro h
      exact ⟨h x (Or.inl rfl), fun y hy => h y (Or.inr hy)⟩

theorem splitOnCh_not_mem (c : Char) (l : List Char) (h : hasCh c l = false) :
    splitOnCh c l = [l] := by
  induction l with
  | nil => rfl
  | cons x xs ih =>
    unfold splitOnCh
    unfold hasCh at h
    simp only [Bool.or_eq_false_iff, decide_eq_false_iff_not] at h
    rw [if_neg h.1, ih h.2]

theorem splitFirstCh_append (c : Char) (a b : List Char) (h : hasCh c a = false) :
    splitFirstCh c (a ++ c :: b) = (a, b) := by
  induction a with
  | nil => simp [splitFirstCh]
  | cons x xs ih =>
    unfold splitFirstCh
    unfold hasCh at h
    simp only [Bool.or_eq_false_iff, decide_eq_false_iff_not] at h
    simp only [List.cons_append, if_neg h.1]
    rw [ih h.2]

theorem dropWhile_cons_ne (p : Char → Bool) (x : Char) (l : List Char) (h : p x = false) :
    (x :: l).dropWhile p = x :: l := by
  simp [List.dropWhile, h]

theorem rstripCh_append_last (c : Char) (l : List Char) :
    rstripCh c (l ++ [c]) = rstripCh c l := by
  unfold rstripCh
  simp [List.dropWhile]

theorem rstripCh_of_ne_last (c x : Char) (l : List Char) (init : List Char)
    (hshape : l = init ++ [x]) (hx : x ≠ c) : rstripCh c l = l := by
  subst hshape
  unfold rstripCh
  rw [List.reverse_append]
  simp only [List.reverse_cons, List.reverse_nil, List.nil_append, List.singleton_append]
  rw [dropWhile_cons_ne _ x _ (by simp [hx])]
  simp

theorem dropWhile_id_of_all (p : Char → Bool) (l : List Char)
    (h : ∀ c ∈ l, p c = false) : l.dropWhile p = l := by
  cases l with
  | nil => rfl
  | cons x xs => exact dropWhile_cons_ne p x xs (h x (List.mem_cons_self x xs))

theorem stripWs_id (l : List Char) (h : ∀ c ∈ l, isPyWs c = false) :
    stripWs l = l := by
  unfold stripWs
  rw [dropWhile_id_of_all _ _ h,
    dropWhile_id_of_all _ _ (fun c hc => h c (List.mem_reverse.mp hc)),
    List.reverse_reverse]

theorem isDigit_not_ws (c : Char) (h : c.isDigit = true) : isPyWs c = false := by
  unfold isPyWs
  simp only [Bool.or_eq_false_iff, decide_eq_false_iff_not]
  refine ⟨⟨⟨?_, ?_⟩, ?_⟩, ?_⟩ <;> exact isDigit_ne c _ (by decide) h

theorem parsePyInt_neg_natDigits (k : Nat) :
    parsePyInt ('-' :: natDigits k) = some (-(k : Int)) := by
  unfold parsePyInt
  rw [stripWs_id ('-' :: natDigits k) ?hws]
  case hws =>
    intro c hc
    rcases List.mem_cons.mp hc with rfl | hmem
    · decide
    · exact isDigit_not_ws c (natDigits_all_digits k c hmem)
  simp [parseDigits_natDigits]

theorem hasCh_digits_false (k : Nat) (d : Char) (hd : d.isDigit = false) :
    hasCh d (natDigits k) = false :=
  (hasCh_eq_false_iff d (natDigits k)).mpr
    (fun c hc => isDigit_ne c d hd (natDigits_all_digits k c hc))

theorem pySubscriptStr_obj_found (kvs : List (String × JValue)) (k : String) (v : JValue)
    (h : alistLookup kvs k = some v) : pySubscriptStr (.obj kvs) k = .ok v := by
  simp only [pySubscriptStr, h]

theorem pySubscriptInt_arr_neg (xs : List JValue) (k : Nat) (h1 : 0 < k) (h2 : k ≤ xs.length) :
    pySubscriptInt (.arr xs) (-(k : Int)) = .ok (xs.get ⟨xs.length - k, by omega⟩) := by
  simp only [pySubscriptInt]
  have hj : (if -(k : Int) < 0 then -(k : Int) + (xs.length : Int) else -(k : Int))
      = -(k : Int) + (xs.length : Int) := if_pos (by omega)
  simp only [hj]
  split
  · exact congrArg (fun i => Except.ok (xs.get i))
      (Fin.ext (show (-(k : Int) + (xs.length : Int)).toNat = xs.length - k by omega))
  · next hc => exact absurd ⟨by omega, by omega⟩ hc

theorem indexStep_arr_neg (xs : List JValue) (k : Nat) (h1 : 0 < k) (h2 : k ≤ xs.length) :
    indexStep (.arr xs) (String.mk ('-' :: natDigits k)) = .ok (xs.get ⟨xs.length - k, by omega⟩) := by
  simp only [indexStep, mk_data, parsePyInt_neg_natDigits,
    pySubscriptInt_arr_neg xs k h1 h2]

/-- C9: for every list value and every `name[i]` segment with a negative
in-range index `i = -k` (`0 < k ≤ len`), `extract_json_path` indexes from
the end of the list and succeeds: `items[-k]` resolves to the `k`-th
element from the end rather than failing with a path error. -/
theorem extract_json_path_negative_index (xs : List JValue) (k : Nat)
    (h1 : 0 < k) (h2 : k ≤ xs.length) :
    extract_json_path (.obj [("items", .arr xs)]) ("items[-" ++ natStr k ++ "]")
      = .ok (xs.get ⟨xs.length - k, by omega⟩) := by
  have hne := natDigits_ne_nil k
  have hdig := natDigits_all_digits k
  obtain ⟨dinit, dy, hshape⟩ : ∃ init y, natDigits k = init ++ [y] := by
    rcases List.eq_nil_or_concat (natDigits k) with h | ⟨i, y, h⟩
    · exact absurd h hne
    · exact ⟨i, y, by simpa [List.concat_eq_append] using h⟩
  have hdy : dy.isDigit = true := hdig dy (by rw [hshape]; simp)
  have hpath : ("items[-" ++ natStr k ++ "]").data
      = "items".data ++ '[' :: ('-' :: (natDigits k ++ [']'])) := by
    rw [data_append, data_append, natStr, mk_data]
    show ['i','t','e','m','s','[','-'] ++ (natDigits k ++ [']'])
      = ['i','t','e','m','s'] ++ '[' :: ('-' :: (natDigits k ++ [']']))
    simp
  have hdot : hasCh '.' ("items[-" ++ natStr k ++ "]").data = false := by
    rw [hpath, hasCh_append]
    simp [hasCh, hasCh_append, hasCh_digits_false k '.' (by decide)]
  have hbr : hasCh '[' ("items[-" ++ natStr k ++ "]").data = true := by
    rw [hpath, hasCh_append]
    simp [hasCh]
  have hbrr : hasCh ']' ("items[-" ++ natStr k ++ "]").data = true := by
    rw [hpath, hasCh_append]
    simp [hasCh, hasCh_append]
  unfold extract_json_path
  rw [if_neg (by rw [hpath]; simp)]
  rw [if_neg (by rw [hbr]; simp)]
  rw [splitOnCh_not_mem '.' _ hdot]
  unfold extractLoop
  rw [if_neg (by rw [hpath]; simp)]
  rw [if_pos (by rw [hbr, hbrr]; simp)]
  rw [hpath, splitFirstCh_append '[' _ _ (by decide)]
  rw [show ('-' :: (natDigits k ++ [']'])) = (('-' :: natDigits k) ++ [']']) from rfl]
  simp only [rstripCh_append_last]
  rw [rstripCh_of_ne_last ']' dy ('-' :: natDigits k) ('-' :: dinit)
    (by rw [hshape]; rfl) (isDigit_ne dy ']' (by decide) hdy)]
  rw [if_pos (show ("items".data ≠ []) by decide)]
  simp only [pySubscriptStr_obj_found [("items", .arr xs)] (String.mk "items".data)
    (.arr xs) rfl, indexStep_arr_neg xs k h1 h2, extractLoop]

/-- Witness for C9 at a concrete input: `items[-1]` on a two-element list
resolves to the last element. -/
theorem extract_json_path_negative_index_witness :
    extract_json_path (.obj [("items", .arr [.num 7, .num 8])]) "items[-1]"
      = .ok (.num 8) := by
  have h := extract_json_path_negative_index [.num 7, .num 8] 1 (by decide) (by decide)
  simpa using h

/-- C3: for a single-segment path with no dot and no brackets, key lookup
wins over the numeric-literal interpretation: path `"42"` against `{}`
resolves to the literal string `"42"`, while against `{"42": "x"}` it
resolves to `"x"`. -/
theorem extract_json_path_literal_vs_lookup :
    extract_json_path (.obj []) "42" = .ok (.str "42")
      ∧ extract_json_path (.obj [("42", .str "x")]) "42" = .ok (.str "x") :=
  ⟨rfl, rfl⟩

/-- C6: the path `a.b[0].c` against `{"a":{"b":[{"c":5}]}}` resolves to
`5`; against `{"a":{"b":[]}}` the out-of-range index surfaces as the
resolver's `ValueError` (`PathError`), not as an uncaught `IndexError`. -/
theorem extract_json_path_round_trip :
    extract_json_path (.obj [("a", .obj [("b", .arr [.obj [("c", .num 5)]])])]) "a.b[0].c"
      = .ok (.num 5)
      ∧ extract_json_path (.obj [("a", .obj [("b", .arr [])])]) "a.b[0].c"
        = .error (.valueError "Invalid array index: 0") :=
  ⟨rfl, rfl⟩

/-- C2: for every mapping table and raw-data value of any shape,
`apply_data_mapping` is total (it never raises), the returned mapping has
exactly the same key sequence as the table, a field whose path resolution
raises comes back as null, and a field whose path resolution succeeds
comes back as the resolved value. -/
theorem apply_data_mapping_key_set (m : List (String × String)) (d : JValue) :
    (apply_data_mapping m d).map Prod.fst = m.map Prod.fst
      ∧ ∀ f p, (f, p) ∈ m →
        ((∀ e, extract_json_path d p = .error e → (f, JValue.null) ∈ apply_data_mapping m d)
          ∧ (∀ v, extract_json_path d p = .ok v → (f, v) ∈ apply_data_mapping m d)) := by
  constructor
  · simp [apply_data_mapping]
  · intro f p hmem
    constructor
    · intro e he
      have : (f, JValue.null) = (fun fp : String × String =>
          (fp.1, match extract_json_path d fp.2 with
            | .ok v => v
            | .error _ => JValue.null)) (f, p) := by
        simp [he]
      rw [this]
      exact List.mem_map_of_mem _ hmem
    · intro v hv
      have : (f, v) = (fun fp : String × String =>
          (fp.1, match extract_json_path d fp.2 with
            | .ok v => v
            | .error _ => JValue.null)) (f, p) := by
        simp [hv]
      rw [this]
      exact List.mem_map_of_mem _ hmem

/-- Witness for C2 at a concrete table: one resolvable field, one failing
field; keys preserved, failure degraded to null, success carried over. -/
theorem apply_data_mapping_key_set_witness :
    (apply_data_mapping [("x", "a"), ("y", "q.r")] (.obj [("a", .num 1)])).map Prod.fst
        = ["x", "y"]
      ∧ ("x", JValue.num 1) ∈ apply_data_mapping [("x", "a"), ("y", "q.r")] (.obj [("a", .num 1)])
      ∧ ("y", JValue.null) ∈ apply_data_mapping [("x", "a"), ("y", "q.r")] (.obj [("a", .num 1)]) := by
  refine ⟨(apply_data_mapping_key_set _ _).1, ?_, ?_⟩
  · exact ((apply_data_mapping_key_set [("x", "a"), ("y", "q.r")] (.obj [("a", .num 1)])).2
      "x" "a" (by simp)).2 (.num 1) rfl
  · exact ((apply_data_mapping_key_set [("x", "a"), ("y", "q.r")] (.obj [("a", .num 1)])).2
      "y" "q.r" (by simp)).1 (.keyError "'q'") rfl

/-- C7: in RSS acquisition with a non-empty feed URL, a connection failure
of the preview POST invokes the direct-fetch tier exactly once with the
original feed URL, while a successful preview response carrying a `feed`
key returns that value as the raw data without ever invoking the direct
tier. -/
theorem fetch_rss_data_tiering (api_url : String) (h : api_url ≠ "")
    (direct : String → Except PyErr JValue) :
    fetch_rss_data api_url .connectionError direct = (direct api_url, [api_url])
      ∧ ∀ kvs f, alistLookup kvs "feed" = some f →
        fetch_rss_data api_url (.success (.obj kvs)) direct = (.ok f, []) := by
  constructor
  · unfold fetch_rss_data
    rw [if_neg h]
  · intro kvs f hf
    unfold fetch_rss_data
    rw [if_neg h]
    simp only [hf]

/-- Witness for C7 at a concrete URL and stub direct tier. -/
theorem fetch_rss_data_tiering_witness :
    fetch_rss_data "http://feeds.example/rss" .connectionError (fun u => .ok (.str u))
        = (.ok (.str "http://feeds.example/rss"), ["http://feeds.example/rss"])
      ∧ fetch_rss_data "http://feeds.example/rss"
          (.success (.obj [("feed", .num 3)])) (fun u => .ok (.str u))
        = (.ok (.num 3), []) := by
  refine ⟨(fetch_rss_data_tiering "http://feeds.example/rss" (by decide) _).1, ?_⟩
  exact (fetch_rss_data_tiering "http://feeds.example/rss" (by decide)
    (fun u => .ok (.str u))).2 [("feed", .num 3)] (.num 3) rfl

/-- C1: `execute` is a total function into HTML strings (no exception
reaches its caller); whenever any stage of the pipeline raises, the result
is exactly the fixed-shape error fragment built by `render_error` around
the escaped failure message, and whenever the pipeline succeeds the result
is its fragment.  The fixed shape of `render_error` is stated explicitly. -/
theorem execute_total_error_fragment (cfg : Config) (api : ApiOutcome)
    (preview : PreviewOutcome) (direct : String → Except PyErr JValue) (clock : Clock) :
    (∀ e, runPipeline cfg api preview direct clock = .error e →
        execute cfg api preview direct clock
          = errA ++ htmlEscape ("Widget execution failed: " ++ errMsg e) ++ errB)
      ∧ (∀ frag, runPipeline cfg api preview direct clock = .ok frag →
          execute cfg api preview direct clock = frag) := by
  constructor
  · intro e he
    unfold execute
    rw [he]
    rfl
  · intro frag hf
    unfold execute
    rw [hf]

/-- Witness for C1: a configuration with an empty API URL fails at
acquisition and yields exactly the escaped error fragment. -/
theorem execute_total_error_fragment_witness :
    execute ⟨"api", "", "key_value", []⟩ (.success (.obj [])) .connectionError
        (fun _ => .ok .null) ⟨"12:00:00", "2026-01-01"⟩
      = errA ++ htmlEscape "Widget execution failed: API URL is required" ++ errB :=
  (execute_total_error_fragment ⟨"api", "", "key_value", []⟩ (.success (.obj []))
    .connectionError (fun _ => .ok .null) ⟨"12:00:00", "2026-01-01"⟩).1
    (.valueError "API URL is required") rfl

/-- When both the `time` and the `date` fields are present in the mapped
data, the time-display renderer never consults the clock defaults. -/
theorem render_time_display_keys_present (d : MappedData) (c1 c2 : Clock)
    (t dt : JValue) (ht : alistLookup d "time" = some t)
    (hd : alistLookup d "date" = some dt) :
    render_time_display d c1 = render_time_display d c2 := by
  unfold render_time_display
  simp only [getJ, ht, hd, Option.getD_some]

/-- Counterexample for C4: with the `time_display` template and a mapped
data lacking the `time` field, two invocations of `render_template` with
the same `(templateId, MappedData)` arguments but different wall-clock
readings produce different fragments, so rendering is not a pure function
of its two arguments. -/
theorem render_template_clock_dependent :
    render_template "time_display" [] ⟨"00:00:00", "2000-01-01"⟩
      ≠ render_template "time_display" [] ⟨"11:11:11", "2000-01-01"⟩ := by
  intro h
  have h1 : render_template "time_display" [] ⟨"00:00:00", "2000-01-01"⟩
      = .ok (render_time_display [] ⟨"00:00:00", "2000-01-01"⟩) := rfl
  have h2 : render_template "time_display" [] ⟨"11:11:11", "2000-01-01"⟩
      = .ok (render_time_display [] ⟨"11:11:11", "2000-01-01"⟩) := rfl
  rw [h1, h2] at h
  exact absurd (Except.ok.inj h) (by decide)

/-- C4 (amended): rendering is a pure deterministic function of
`(templateId, MappedData)` for every template other than `time_display`,
and also for `time_display` whenever the mapped data carries both the
`time` and the `date` fields; only `time_display` with one of those
fields absent reads the current clock. -/
theorem render_template_deterministic_amended (tid : String) (d : MappedData) (c1 c2 : Clock)
    (h : tid ≠ "time_display"
      ∨ ((alistLookup d "time").isSome ∧ (alistLookup d "date").isSome)) :
    render_template tid d c1 = render_template tid d c2 := by
  by_cases htid : tid = "time_display"
  · subst htid
    rcases h with hne | ⟨ht, hd⟩
    · exact absurd rfl hne
    · obtain ⟨t, hts⟩ := Option.isSome_iff_exists.mp ht
      obtain ⟨dt, hds⟩ := Option.isSome_iff_exists.mp hd
      unfold render_template
      rw [if_neg (by decide), if_neg (by decide), if_neg (by decide), if_neg (by decide),
        if_pos rfl]
      exact congrArg Except.ok (render_time_display_keys_present d c1 c2 t dt hts hds)
  · by_cases e1 : tid = "key_value"
    · subst e1
      show (Except.ok (render_key_value d) : Except PyErr String) = Except.ok (render_key_value d)
      rfl
    by_cases e2 : tid = "title_subtitle_value"
    · subst e2
      show (Except.ok (render_title_subtitle_value d) : Except PyErr String) = Except.ok (render_title_subtitle_value d)
      rfl
    by_cases e3 : tid = "metric_grid"
    · subst e3
      show (Except.ok (render_metric_grid d) : Except PyErr String) = Except.ok (render_metric_grid d)
      rfl
    by_cases e4 : tid = "weather_current"
    · subst e4
      show (Except.ok (render_weather_current d) : Except PyErr String) = Except.ok (render_weather_current d)
      rfl
    by_cases e6 : tid = "status_list"
    · subst e6
      show (Except.ok (render_status_list d) : Except PyErr String) = Except.ok (render_status_list d)
      rfl
    by_cases e7 : tid = "icon_list"
    · subst e7
      show (Except.ok (render_icon_list d) : Except PyErr String) = Except.ok (render_icon_list d)
      rfl
    by_cases e8 : tid = "text_block"
    · subst e8
      show (Except.ok (render_text_block d) : Except PyErr String) = Except.ok (render_text_block d)
      rfl
    by_cases e9 : tid = "chart_simple"
    · subst e9
      show render_chart_simple d = render_chart_simple d
      rfl
    by_cases e10 : tid = "image_caption"
    · subst e10
      show (Except.ok (render_image_caption d) : Except PyErr String) = Except.ok (render_image_caption d)
      rfl
    by_cases e11 : tid = "rss_headlines"
    · subst e11
      show (Except.ok (render_rss_headlines d) : Except PyErr String) = Except.ok (render_rss_headlines d)
      rfl
    by_cases e12 : tid = "rss_summary"
    · subst e12
      show (Except.ok (render_rss_summary d) : Except PyErr String) = Except.ok (render_rss_summary d)
      rfl
    by_cases e13 : tid = "rss_feed_info"
    · subst e13
      show render_rss_feed_info d = render_rss_feed_info d
      rfl
    unfold render_template
    simp only [if_neg e1, if_neg e2, if_neg e3, if_neg e4, if_neg htid, if_neg e6,
      if_neg e7, if_neg e8, if_neg e9, if_neg e10, if_neg e11, if_neg e12, if_neg e13]

/-- Witness for the amended C4 at a concrete clock-independent template. -/
theorem render_template_deterministic_amended_witness :
    render_template "key_value" [] ⟨"00:00:00", "2000-01-01"⟩
      = render_template "key_value" [] ⟨"11:11:11", "2000-01-01"⟩ :=
  render_template_deterministic_amended "key_value" [] ⟨"00:00:00", "2000-01-01"⟩
    ⟨"11:11:11", "2000-01-01"⟩ (Or.inl (by decide))

theorem isPrefixL_append_self (p r : List Char) : isPrefixL p (p ++ r) = true := by
  induction p with
  | nil => rfl
  | cons c cs ih => simp [isPrefixL, ih]

theorem isPrefixL_nil_l (l : List Char) : isPrefixL [] l = true := by
  cases l <;> rfl

theorem isPrefixL_append_right (p l r : List Char) (h : isPrefixL p l = true) :
    isPrefixL p (l ++ r) = true := by
  induction p generalizing l with
  | nil => exact isPrefixL_nil_l (l ++ r)
  | cons c cs ih =>
    cases l with
    | nil => simp [isPrefixL] at h
    | cons x xs =>
      simp only [isPrefixL, Bool.and_eq_true, decide_eq_true_eq] at h ⊢
      exact ⟨h.1, ih xs h.2⟩

theorem isInfixL_of_isPrefixL (p l : List Char) (h : isPrefixL p l = true) :
    isInfixL p l = true := by
  cases l with
  | nil => simpa [isInfixL] using h
  | cons c cs => simp [isInfixL, h]

theorem isInfixL_cons (p l : List Char) (c : Char) (h : isInfixL p l = true) :
    isInfixL p (c :: l) = true := by
  simp [isInfixL, h]

theorem isInfixL_append_left (p a l : List Char) (h : isInfixL p l = true) :
    isInfixL p (a ++ l) = true := by
  induction a with
  | nil => exact h
  | cons c cs ih => exact isInfixL_cons p (cs ++ l) c ih

theorem isInfixL_append_right (p l r : List Char) (h : isInfixL p l = true) :
    isInfixL p (l ++ r) = true := by
  induction l with
  | nil =>
    simp only [isInfixL] at h
    exact isInfixL_of_isPrefixL p r (by
      cases p with
      | nil => exact isPrefixL_nil_l r
      | cons c cs => simp [isPrefixL] at h)
  | cons c cs ih =>
    simp only [isInfixL, Bool.or_eq_true] at h
    rcases h with h | h
    · exact isInfixL_of_isPrefixL _ _ (isPrefixL_append_right p (c :: cs) r h)
    · exact isInfixL_cons _ _ _ (ih h)

theorem strContains_append_left (s pat a : String) (h : strContains s pat = true) :
    strContains (a ++ s) pat = true := by
  unfold strContains at h ⊢
  rw [data_append]
  exact isInfixL_append_left pat.data a.data s.data h

theorem strContains_append_right (s pat b : String) (h : strContains s pat = true) :
    strContains (s ++ b) pat = true := by
  unfold strContains at h ⊢
  rw [data_append]
  exact isInfixL_append_right pat.data s.data b.data h

theorem append_ne_of_head_diff (a b : String) (i : Nat)
    (hi1 : i < a.data.length) (hi2 : i < b.data.length)
    (hne : a.data[i]? ≠ b.data[i]?) (t u : String) : a ++ t ≠ b ++ u := by
  intro h
  have hd : (a ++ t).data = (b ++ u).data := congrArg String.data h
  rw [data_append, data_append] at hd
  have h1 : (a.data ++ t.data)[i]? = a.data[i]? := List.getElem?_append_left hi1
  have h2 : (b.data ++ u.data)[i]? = b.data[i]? := List.getElem?_append_left hi2
  rw [hd] at h1
  rw [h2] at h1
  exact hne h1.symm

theorem minFold_num (l : List JValue) (h : ∀ v ∈ l, ∃ n : Int, v = .num n) (acc : Int) :
    ∃ m : Int, minFold (.num acc) l = .ok (.num m)
      ∧ (m = acc ∨ JValue.num m ∈ l) ∧ m ≤ acc ∧ (∀ n : Int, JValue.num n ∈ l → m ≤ n) := by
  induction l generalizing acc with
  | nil => exact ⟨acc, rfl, Or.inl rfl, le_refl acc, fun n hn => absurd hn (by simp)⟩
  | cons v rest ih =>
    obtain ⟨a, rfl⟩ := h v (List.mem_cons_self v rest)
    have hrest : ∀ w ∈ rest, ∃ n : Int, w = .num n := fun w hw => h w (List.mem_cons_of_mem _ hw)
    by_cases hlt : a < acc
    · obtain ⟨m, hm, hmem, hle, hbound⟩ := ih hrest a
      refine ⟨m, ?_, ?_, by omega, ?_⟩
      · simpa [minFold, pyLtV, numVal, hlt] using hm
      · rcases hmem with rfl | hmem
        · exact Or.inr (List.mem_cons_self _ _)
        · exact Or.inr (List.mem_cons_of_mem _ hmem)
      · intro n hn
        rcases List.mem_cons.mp hn with hh | hmem2
        · have : n = a := by
            have := congrArg (fun x => match x with | JValue.num k => k | _ => 0) hh
            simpa using this
          omega
        · exact hbound n hmem2
    · obtain ⟨m, hm, hmem, hle, hbound⟩ := ih hrest acc
      refine ⟨m, ?_, ?_, hle, ?_⟩
      · simpa [minFold, pyLtV, numVal, hlt] using hm
      · rcases hmem with rfl | hmem
        · exact Or.inl rfl
        · exact Or.inr (List.mem_cons_of_mem _ hmem)
      · intro n hn
        rcases List.mem_cons.mp hn with hh | hmem2
        · have : n = a := by
            have := congrArg (fun x => match x with | JValue.num k => k | _ => 0) hh
            simpa using this
          omega
        · exact hbound n hmem2

theorem maxFold_num (l : List JValue) (h : ∀ v ∈ l, ∃ n : Int, v = .num n) (acc : Int) :
    ∃ m : Int, maxFold (.num acc) l = .ok (.num m)
      ∧ (m = acc ∨ JValue.num m ∈ l) ∧ acc ≤ m ∧ (∀ n : Int, JValue.num n ∈ l → n ≤ m) := by
  induction l generalizing acc with
  | nil => exact ⟨acc, rfl, Or.inl rfl, le_refl acc, fun n hn => absurd hn (by simp)⟩
  | cons v rest ih =>
    obtain ⟨a, rfl⟩ := h v (List.mem_cons_self v rest)
    have hrest : ∀ w ∈ rest, ∃ n : Int, w = .num n := fun w hw => h w (List.mem_cons_of_mem _ hw)
    by_cases hlt : acc < a
    · obtain ⟨m, hm, hmem, hle, hbound⟩ := ih hrest a
      refine ⟨m, ?_, ?_, by omega, ?_⟩
      · simpa [maxFold, pyLtV, numVal, hlt] using hm
      · rcases hmem with rfl | hmem
        · exact Or.inr (List.mem_cons_self _ _)
        · exact Or.inr (List.mem_cons_of_mem _ hmem)
      · intro n hn
        rcases List.mem_cons.mp hn with hh | hmem2
        · have : n = a := by
            have := congrArg (fun x => match x with | JValue.num k => k | _ => 0) hh
            simpa using this
          omega
        · exact hbound n hmem2
    · obtain ⟨m, hm, hmem, hle, hbound⟩ := ih hrest acc
      refine ⟨m, ?_, ?_, hle, ?_⟩
      · simpa [maxFold, pyLtV, numVal, hlt] using hm
      · rcases hmem with rfl | hmem
        · exact Or.inl rfl
        · exact Or.inr (List.mem_cons_of_mem _ hmem)
      · intro n hn
        rcases List.mem_cons.mp hn with hh | hmem2
        · have : n = a := by
            have := congrArg (fun x => match x with | JValue.num k => k | _ => 0) hh
            simpa using this
          omega
        · exact hbound n hmem2

theorem sumFold_num (l : List JValue) (h : ∀ v ∈ l, ∃ n : Int, v = .num n) (acc : Int) :
    ∃ s : Int, sumFold acc l = .ok s := by
  induction l generalizing acc with
  | nil => exact ⟨acc, rfl⟩
  | cons v rest ih =>
    obtain ⟨a, rfl⟩ := h v (List.mem_cons_self v rest)
    obtain ⟨s, hs⟩ := ih (fun w hw => h w (List.mem_cons_of_mem _ hw)) (acc + a)
    exact ⟨s, by simpa [sumFold, numVal] using hs⟩

theorem pyMinV_num (pts : List JValue) (hne : pts ≠ [])
    (h : ∀ v ∈ pts, ∃ n : Int, v = .num n) :
    ∃ m : Int, pyMinV pts = .ok (.num m) ∧ JValue.num m ∈ pts
      ∧ ∀ n : Int, JValue.num n ∈ pts → m ≤ n := by
  cases pts with
  | nil => exact absurd rfl hne
  | cons v rest =>
    obtain ⟨a, rfl⟩ := h v (List.mem_cons_self v rest)
    obtain ⟨m, hm, hmem, hle, hbound⟩ :=
      minFold_num rest (fun w hw => h w (List.mem_cons_of_mem _ hw)) a
    refine ⟨m, hm, ?_, ?_⟩
    · rcases hmem with rfl | hmem
      · exact List.mem_cons_self _ _
      · exact List.mem_cons_of_mem _ hmem
    · intro n hn
      rcases List.mem_cons.mp hn with hh | hmem2
      · have : n = a := by
          have := congrArg (fun x => match x with | JValue.num k => k | _ => 0) hh
          simpa using this
        omega
      · exact hbound n hmem2

theorem pyMaxV_num (pts : List JValue) (hne : pts ≠ [])
    (h : ∀ v ∈ pts, ∃ n : Int, v = .num n) :
    ∃ m : Int, pyMaxV pts = .ok (.num m) ∧ JValue.num m ∈ pts
      ∧ ∀ n : Int, JValue.num n ∈ pts → n ≤ m := by
  cases pts with
  | nil => exact absurd rfl hne
  | cons v rest =>
    obtain ⟨a, rfl⟩ := h v (List.mem_cons_self v rest)
    obtain ⟨m, hm, hmem, hle, hbound⟩ :=
      maxFold_num rest (fun w hw => h w (List.mem_cons_of_mem _ hw)) a
    refine ⟨m, hm, ?_, ?_⟩
    · rcases hmem with rfl | hmem
      · exact List.mem_cons_self _ _
      · exact List.mem_cons_of_mem _ hmem
    · intro n hn
      rcases List.mem_cons.mp hn with hh | hmem2
      · have : n = a := by
          have := congrArg (fun x => match x with | JValue.num k => k | _ => 0) hh
          simpa using this
        omega
      · exact hbound n hmem2

theorem pySumV_num (pts : List JValue) (h : ∀ v ∈ pts, ∃ n : Int, v = .num n) :
    ∃ s : Int, pySumV pts = .ok s :=
  sumFold_num pts h 0

/-- C8: chart-simple rendering with an empty `data_points` list produces
the fragment whose statistics slot holds exactly the literal "No data
available" entry (so no min/max/mean block is emitted; at the
specification's own example data the text "Min" is absent); with a
non-empty all-integer `data_points` list it succeeds and reports the true
minimum, the true maximum, and the mean formatted to one decimal place. -/
theorem render_chart_simple_stats (d : MappedData) (clock : Clock) :
    (alistLookup d "data_points" = some (.arr []) →
      ∃ frag, render_template "chart_simple" d clock = .ok frag
        ∧ frag = csA ++ htmlEscape (safe_str (getJ d "title" (.str "Chart")))
            ++ csB ++ noDataLit ++ csC
        ∧ strContains frag "No data available" = true)
    ∧ (∀ pts, alistLookup d "data_points" = some (.arr pts) → pts ≠ [] →
        (∀ v ∈ pts, ∃ n : Int, v = .num n) →
        ∃ mn mx s frag,
          pyMinV pts = .ok (.num mn) ∧ JValue.num mn ∈ pts
            ∧ (∀ n : Int, JValue.num n ∈ pts → mn ≤ n)
            ∧ pyMaxV pts = .ok (.num mx) ∧ JValue.num mx ∈ pts
            ∧ (∀ n : Int, JValue.num n ∈ pts → n ≤ mx)
            ∧ pySumV pts = .ok s
            ∧ render_template "chart_simple" d clock = .ok frag
            ∧ frag = csA ++ htmlEscape (safe_str (getJ d "title" (.str "Chart"))) ++ csB
                ++ (csStatsA ++ intStr mn ++ " "
                    ++ htmlEscape (safe_str (getJ d "unit" (.str "")))
                    ++ csStatsB ++ intStr mx ++ " "
                    ++ htmlEscape (safe_str (getJ d "unit" (.str "")))
                    ++ csStatsC ++ formatAvg s pts.length ++ " "
                    ++ htmlEscape (safe_str (getJ d "unit" (.str ""))) ++ csStatsD) ++ csC
            ∧ strContains frag "Min" = true ∧ strContains frag "Max" = true
            ∧ strContains frag "Avg" = true)
    ∧ strContains (csA ++ htmlEscape "C" ++ csB ++ noDataLit ++ csC) "Min" = false := by
  have hrt : render_template "chart_simple" d clock = render_chart_simple d := rfl
  refine ⟨?_, ?_, by decide⟩
  · intro h
    refine ⟨_, ?_, rfl, ?_⟩
    · rw [hrt]
      simp only [render_chart_simple, getJ, h, Option.getD_some]
      rfl
    · apply strContains_append_right
      apply strContains_append_left
      decide
  · intro pts hdp hne hnum
    obtain ⟨mn, hmin, hminMem, hminB⟩ := pyMinV_num pts hne hnum
    obtain ⟨mx, hmax, hmaxMem, hmaxB⟩ := pyMaxV_num pts hne hnum
    obtain ⟨s, hsum⟩ := pySumV_num pts hnum
    have hempty : pts.isEmpty = false := by
      cases pts with
      | nil => exact absurd rfl hne
      | cons a b => rfl
    refine ⟨mn, mx, s, _, hmin, hminMem, hminB, hmax, hmaxMem, hmaxB, hsum, ?_, rfl, ?_, ?_, ?_⟩
    · rw [hrt]
      simp only [render_chart_simple, getJ, hdp, Option.getD_some, hempty,
        Bool.false_eq_true, if_false, hmin, hmax, hsum]
      rfl
    · apply strContains_append_right
      apply strContains_append_left
      apply strContains_append_right
      apply strContains_append_right
      apply strContains_append_right
      apply strContains_append_right
      apply strContains_append_right
      apply strContains_append_right
      apply strContains_append_right
      apply strContains_append_right
      apply strContains_append_right
      apply strContains_append_right
      apply strContains_append_right
      apply strContains_append_right
      decide
    · apply strContains_append_right
      apply strContains_append_left
      apply strContains_append_right
      apply strContains_append_right
      apply strContains_append_right
      apply strContains_append_right
      apply strContains_append_right
      apply strContains_append_right
      apply strContains_append_right
      apply strContains_append_right
      apply strContains_append_left
      decide
    · apply strContains_append_right
      apply strContains_append_left
      apply strContains_append_right
      apply strContains_append_right
      apply strContains_append_right
      apply strContains_append_right
      apply strContains_append_left
      decide

/-- Witness for C8 at the specification's example data and at the list
`[1, 2, 3]` (min 1, max 3, mean "2.0"). -/
theorem render_chart_simple_stats_witness :
    render_template "chart_simple"
        [("title", JValue.str "C"), ("data_points", JValue.arr []), ("unit", JValue.str "%")]
        ⟨"", ""⟩
      = .ok (csA ++ htmlEscape "C" ++ csB ++ noDataLit ++ csC)
    ∧ render_template "chart_simple" [("data_points", JValue.arr [.num 1, .num 2, .num 3])]
        ⟨"", ""⟩
      = .ok (csA ++ htmlEscape "Chart" ++ csB
          ++ (csStatsA ++ "1" ++ " " ++ "" ++ csStatsB ++ "3" ++ " " ++ ""
              ++ csStatsC ++ "2.0" ++ " " ++ "" ++ csStatsD) ++ csC) := by
  constructor
  · obtain ⟨frag, h1, h2, h3⟩ := (render_chart_simple_stats
      [("title", JValue.str "C"), ("data_points", JValue.arr []), ("unit", JValue.str "%")]
      ⟨"", ""⟩).1 rfl
    rw [h1, h2]
    rfl
  · obtain ⟨mn, mx, s, frag, hmin, hmm1, hmb1, hmax, hmm2, hmb2, hsum, hrt2, hfrag, hc1, hc2, hc3⟩ :=
      (render_chart_simple_stats [("data_points", JValue.arr [.num 1, .num 2, .num 3])] ⟨"", ""⟩).2.1
        [.num 1, .num 2, .num 3] rfl (by simp)
        (by
          intro v hv
          simp only [List.mem_cons, List.not_mem_nil, or_false] at hv
          rcases hv with rfl | rfl | rfl
          exacts [⟨1, rfl⟩, ⟨2, rfl⟩, ⟨3, rfl⟩])
    have hmn : mn = 1 := (JValue.num.inj (Except.ok.inj (hmin.symm.trans
      (rfl : pyMinV [JValue.num 1, JValue.num 2, JValue.num 3] = .ok (.num 1)))))
    have hmx : mx = 3 := (JValue.num.inj (Except.ok.inj (hmax.symm.trans
      (rfl : pyMaxV [JValue.num 1, JValue.num 2, JValue.num 3] = .ok (.num 3)))))
    have hs : s = 6 := Except.ok.inj (hsum.symm.trans
      (rfl : pySumV [JValue.num 1, JValue.num 2, JValue.num 3] = .ok 6))
    rw [hrt2, hfrag, hmn, hmx, hs]
    rfl

/-- C10: rss-headlines rendering with an empty `items` list produces the
fragment whose list body is exactly the literal "No headlines available"
entry — it contains that text, and it is not an error fragment. -/
theorem render_rss_headlines_no_items (d : MappedData) (clock : Clock)
    (h : alistLookup d "items" = some (.arr [])) :
    ∃ frag, render_template "rss_headlines" d clock = .ok frag
      ∧ frag = rhA ++ htmlEscape (safe_str (getJ d "feed_title" (.str "RSS Feed")))
          ++ rhB ++ noHeadLit ++ rhC
      ∧ strContains frag "No headlines available" = true
      ∧ ∀ m, frag ≠ render_error m := by
  have hrt : render_template "rss_headlines" d clock
      = .ok (render_rss_headlines d) := rfl
  refine ⟨render_rss_headlines d, hrt, ?_, ?_, ?_⟩
  · simp only [render_rss_headlines, getJ, h, Option.getD_some]
    rfl
  · have hshape : render_rss_headlines d
        = rhA ++ htmlEscape (safe_str (getJ d "feed_title" (.str "RSS Feed")))
            ++ rhB ++ noHeadLit ++ rhC := by
      simp only [render_rss_headlines, getJ, h, Option.getD_some]
      rfl
    rw [hshape]
    apply strContains_append_right
    apply strContains_append_left
    decide
  · intro m
    have hshape : render_rss_headlines d
        = rhA ++ (htmlEscape (safe_str (getJ d "feed_title" (.str "RSS Feed")))
            ++ rhB ++ noHeadLit ++ rhC) := by
      simp only [render_rss_headlines, getJ, h, Option.getD_some]
      simp only [String.append_assoc]
      rfl
    rw [hshape]
    unfold render_error
    rw [show errA ++ htmlEscape m ++ errB = errA ++ (htmlEscape m ++ errB) from
      (String.append_assoc _ _ _)]
    exact append_ne_of_head_diff rhA errA 28 (by decide) (by decide) (by decide) _ _

/-- Witness for C10 at a concrete empty feed. -/
theorem render_rss_headlines_no_items_witness :
    render_template "rss_headlines" [("items", JValue.arr [])] ⟨"", ""⟩
      = .ok (rhA ++ htmlEscape "RSS Feed" ++ rhB ++ noHeadLit ++ rhC) := by
  obtain ⟨frag, h1, h2, h3, h4⟩ :=
    render_rss_headlines_no_items [("items", JValue.arr [])] ⟨"", ""⟩ rfl
  rw [h1, h2]
  rfl

/-! ## C5 infrastructure: escaped-fragment decomposition

`EscFrag s` witnesses that `s` is an interleaving of fixed template
literal chunks (the `templateLits` below, each a verbatim slice of a
renderer f-string) and strings that are the image of `htmlEscape` — in
particular every data-derived insertion either passed through
`html.escape` or coincides with its own escaping (it contains no
HTML-special character, as for the numeric statistics). -/

/-- Characters that `html.escape` maps to themselves. -/
def plainChar (c : Char) : Bool :=
  !(c = '&' || c = '<' || c = '>' || c = Char.ofNat 34 || c = Char.ofNat 39)

/-- The fixed skeleton chunks of all renderer templates. -/
def templateLits : List String :=
  [divClose, descLitA, metaLitA, titleLitA, errA, errB, kvA, kvB, kvC, subLitA,
   descMtLitA, tsvA, tsvB, tsvC, tsvD, tsvE, mgItemA, mgItemB, mgItemC, gridOuterA,
   gridOuterB, wcHumA, wcHumB, wcWindA, wcWindB, wcA, wcB, wcC, wcD, wcE, tdA, tdB,
   tdC, tdD, tdE, slItemA, slItemB, slItemC, slItemD, slItemE, slItemF, ilIconA,
   ilItemA, ilItemB, ilItemC, ilItemD, tbA, tbB, tbC, tbD, tbE, csStatsA, csStatsB,
   csStatsC, csStatsD, noDataLit, csA, csB, csC, icCapA, icA, icB, icC, icD, icE,
   rhLinkA, rhLinkB, rhLinkC, rhLinkD, rhPlainA, rhPlainB, rhStrA, rhStrB, noHeadLit,
   rhA, rhB, rhC, rsEmptyA, rsEmptyB, rsByLitA, rsLinkLitA, rsLinkLitB, rsA, rsB,
   rsC, rsD, rsE, rsG, fiDescLitA, fiLinkLitB, fiUpdLitA, fiA, fiB, fiC, fiD, fiE, fiF]

/-- A fragment decomposes into fixed template chunks and escaped data. -/
inductive EscFrag : String → Prop where
  | lit (s : String) (h : s ∈ templateLits) : EscFrag s
  | escd (s : String) : EscFrag (htmlEscape s)
  | app (a b : String) : EscFrag a → EscFrag b → EscFrag (a ++ b)

theorem escCh_plain (c : Char) (h : plainChar c = true) : escCh c = [c] := by
  unfold plainChar at h
  simp only [Bool.not_eq_eq_eq_not, Bool.not_true, Bool.or_eq_false_iff,
    decide_eq_false_iff_not] at h
  unfold escCh
  rw [if_neg h.1.1.1.1, if_neg h.1.1.1.2, if_neg h.1.1.2, if_neg h.1.2, if_neg h.2]

theorem htmlEscape_plain (s : String) (h : s.data.all plainChar = true) :
    htmlEscape s = s := by
  unfold htmlEscape
  cases s with
  | mk l =>
    simp only [mk_data] at h ⊢
    congr 1
    induction l with
    | nil => rfl
    | cons c cs ih =>
      simp only [List.all_cons, Bool.and_eq_true] at h
      simp only [List.flatMap_cons, escCh_plain c h.1, ih h.2]
      rfl

theorem escFrag_plain (s : String) (h : s.data.all plainChar = true) : EscFrag s := by
  rw [← htmlEscape_plain s h]
  exact EscFrag.escd s

theorem escFrag_empty : EscFrag "" := EscFrag.escd ""

theorem escFrag_foldl (l : List String) (h : ∀ s ∈ l, EscFrag s) (acc : String)
    (hacc : EscFrag acc) : EscFrag (l.foldl (fun r s => r ++ s) acc) := by
  induction l generalizing acc with
  | nil => exact hacc
  | cons x xs ih =>
    exact ih (fun s hs => h s (List.mem_cons_of_mem _ hs)) (acc ++ x)
      (EscFrag.app _ _ hacc (h x (List.mem_cons_self x xs)))

theorem escFrag_join (l : List String) (h : ∀ s ∈ l, EscFrag s) :
    EscFrag (String.join l) :=
  escFrag_foldl l h "" escFrag_empty

theorem plainChar_of_isDigit (c : Char) (h : c.isDigit = true) : plainChar c = true := by
  unfold plainChar
  simp only [Bool.not_eq_eq_eq_not, Bool.not_true, Bool.or_eq_false_iff,
    decide_eq_false_iff_not]
  exact ⟨⟨⟨⟨isDigit_ne c _ (by decide) h, isDigit_ne c _ (by decide) h⟩,
    isDigit_ne c _ (by decide) h⟩, isDigit_ne c _ (by decide) h⟩,
    isDigit_ne c _ (by decide) h⟩

theorem natStr_plain (n : Nat) : (natStr n).data.all plainChar = true := by
  rw [natStr, mk_data, List.all_eq_true]
  exact fun c hc => plainChar_of_isDigit c (natDigits_all_digits n c hc)

theorem escFrag_natStr (n : Nat) : EscFrag (natStr n) :=
  escFrag_plain _ (natStr_plain n)

theorem escFrag_intStr (i : Int) : EscFrag (intStr i) := by
  unfold intStr
  split
  · exact EscFrag.app _ _ (escFrag_plain "-" (by decide)) (escFrag_natStr i.natAbs)
  · exact escFrag_natStr i.natAbs

theorem escFrag_ite (p : Prop) [Decidable p] (a b : String)
    (ha : EscFrag a) (hb : EscFrag b) : EscFrag (if p then a else b) := by
  split <;> assumption

theorem escFrag_formatAvg (s : Int) (len : Nat) : EscFrag (formatAvg s len) := by
  unfold formatAvg
  exact EscFrag.app _ _ (EscFrag.app _ _ (EscFrag.app _ _
    (escFrag_ite _ _ _ (escFrag_plain "-" (by decide)) escFrag_empty)
    (escFrag_natStr _)) (escFrag_plain "." (by decide))) (escFrag_natStr _)

theorem escFrag_status_icon (v : JValue) : EscFrag (get_status_icon v) := by
  unfold get_status_icon
  exact escFrag_ite _ _ _ (escFrag_plain iconOk (by decide))
    (escFrag_ite _ _ _ (escFrag_plain iconErr (by decide))
      (escFrag_ite _ _ _ (escFrag_plain iconWarn (by decide))
        (escFrag_plain iconBlue (by decide))))

theorem escFrag_status_class (v : JValue) : EscFrag (get_status_class v) := by
  unfold get_status_class
  exact escFrag_ite _ _ _ (escFrag_plain "status-indicator--success" (by decide))
    (escFrag_ite _ _ _ (escFrag_plain "status-indicator--error" (by decide))
      (escFrag_ite _ _ _ (escFrag_plain "status-indicator--warning" (by decide))
        (escFrag_plain "status-indicator--success" (by decide))))

theorem sumFold_ok_numVal (l : List JValue) (acc s : Int) (h : sumFold acc l = .ok s) :
    ∀ v ∈ l, (numVal v).isSome = true := by
  induction l generalizing acc with
  | nil => intro v hv; exact absurd hv (by simp)
  | cons x rest ih =>
    intro v hv
    unfold sumFold at h
    cases hx : numVal x with
    | none => rw [hx] at h; exact absurd h (by simp)
    | some a =>
      rw [hx] at h
      rcases List.mem_cons.mp hv with rfl | hmem
      · rw [hx]; rfl
      · exact ih (acc + a) h v hmem

theorem minFold_mem (l : List JValue) (best v : JValue) (h : minFold best l = .ok v) :
    v = best ∨ v ∈ l := by
  induction l generalizing best with
  | nil =>
    unfold minFold at h
    exact Or.inl (Except.ok.inj h).symm
  | cons x rest ih =>
    unfold minFold at h
    cases hc : pyLtV x best with
    | error e => rw [hc] at h; exact absurd h (by simp)
    | ok b =>
      rw [hc] at h
      rcases ih (if b then x else best) h with heq | hmem
      · by_cases hb : b
        · rw [hb] at heq; simp only [if_true] at heq
          exact Or.inr (heq ▸ List.mem_cons_self x rest)
        · simp only [hb, if_false] at heq
          exact Or.inl heq
      · exact Or.inr (List.mem_cons_of_mem _ hmem)

theorem maxFold_mem (l : List JValue) (best v : JValue) (h : maxFold best l = .ok v) :
    v = best ∨ v ∈ l := by
  induction l generalizing best with
  | nil =>
    unfold maxFold at h
    exact Or.inl (Except.ok.inj h).symm
  | cons x rest ih =>
    unfold maxFold at h
    cases hc : pyLtV best x with
    | error e => rw [hc] at h; exact absurd h (by simp)
    | ok b =>
      rw [hc] at h
      rcases ih (if b then x else best) h with heq | hmem
      · by_cases hb : b
        · rw [hb] at heq; simp only [if_true] at heq
          exact Or.inr (heq ▸ List.mem_cons_self x rest)
        · simp only [hb, if_false] at heq
          exact Or.inl heq
      · exact Or.inr (List.mem_cons_of_mem _ hmem)

theorem pyStr_numeric_plain (v : JValue) (h : (numVal v).isSome = true) :
    (pyStr v).data.all plainChar = true := by
  cases v with
  | num n =>
    show (intStr n).data.all plainChar = true
    unfold intStr
    split
    · rw [data_append]
      simp only [List.all_append, Bool.and_eq_true]
      exact ⟨by decide, natStr_plain n.natAbs⟩
    · exact natStr_plain n.natAbs
  | bool b => cases b <;> decide
  | null => exact absurd h (by simp [numVal])
  | str s => exact absurd h (by simp [numVal])
  | arr xs => exact absurd h (by simp [numVal])
  | obj kvs => exact absurd h (by simp [numVal])

theorem escFrag_opt_block (cond : Prop) [Decidable cond] (block : String)
    (hb : EscFrag block) : ∀ s ∈ (if cond then ([] : List String) else [block]), EscFrag s := by
  intro s hs
  split at hs
  · exact absurd hs (by simp)
  · rw [List.mem_singleton.mp hs]
    exact hb

theorem escFrag_filterMap_items (f : JValue → Option String) (l : List JValue)
    (hf : ∀ a s, f a = some s → EscFrag s) : ∀ s ∈ l.filterMap f, EscFrag s := by
  intro s hs
  obtain ⟨a, hmem, hfa⟩ := List.mem_filterMap.mp hs
  exact hf a s hfa

theorem escFrag_map_items (f : JValue → String) (l : List JValue)
    (hf : ∀ a, EscFrag (f a)) : ∀ s ∈ l.map f, EscFrag s := by
  intro s hs
  obtain ⟨a, hmem, hfa⟩ := List.mem_map.mp hs
  rw [← hfa]
  exact hf a

theorem escFrag_render_error (m : String) : EscFrag (render_error m) := by
  unfold render_error
  repeat' first
    | (refine EscFrag.lit _ ?_; simp [templateLits]; done)
    | exact EscFrag.escd _
    | exact escFrag_empty
    | apply escFrag_ite
    | apply EscFrag.app

theorem escFrag_render_key_value (d : MappedData) : EscFrag (render_key_value d) := by
  unfold render_key_value
  repeat' first
    | (refine EscFrag.lit _ ?_; simp [templateLits]; done)
    | exact EscFrag.escd _
    | exact escFrag_empty
    | apply escFrag_ite
    | apply EscFrag.app

theorem escFrag_render_title_subtitle_value (d : MappedData) :
    EscFrag (render_title_subtitle_value d) := by
  unfold render_title_subtitle_value
  repeat' first
    | (refine EscFrag.lit _ ?_; simp [templateLits]; done)
    | exact EscFrag.escd _
    | exact escFrag_empty
    | apply escFrag_ite
    | apply EscFrag.app

theorem escFrag_render_time_display (d : MappedData) (clock : Clock) :
    EscFrag (render_time_display d clock) := by
  unfold render_time_display
  repeat' first
    | (refine EscFrag.lit _ ?_; simp [templateLits]; done)
    | exact EscFrag.escd _
    | exact escFrag_empty
    | apply escFrag_ite
    | apply EscFrag.app

theorem escFrag_render_text_block (d : MappedData) : EscFrag (render_text_block d) := by
  unfold render_text_block
  repeat' first
    | (refine EscFrag.lit _ ?_; simp [templateLits]; done)
    | exact EscFrag.escd _
    | exact escFrag_empty
    | apply escFrag_ite
    | apply EscFrag.app
    | (refine escFrag_plain dashMark ?_; decide)
    | (refine escFrag_plain " " ?_; decide)

theorem escFrag_render_image_caption (d : MappedData) :
    EscFrag (render_image_caption d) := by
  unfold render_image_caption
  refine escFrag_ite _ _ _ (escFrag_render_error _) ?_
  repeat' first
    | (refine EscFrag.lit _ ?_; simp [templateLits]; done)
    | exact EscFrag.escd _
    | exact escFrag_empty
    | apply escFrag_ite
    | apply EscFrag.app

theorem escFrag_render_weather_current (d : MappedData) :
    EscFrag (render_weather_current d) := by
  unfold render_weather_current
  repeat' first
    | (refine EscFrag.lit _ ?_; simp [templateLits]; done)
    | exact EscFrag.escd _
    | exact escFrag_empty
    | apply escFrag_ite
    | apply EscFrag.app
  apply escFrag_join
  intro s hs
  rcases List.mem_append.mp hs with hmem | hmem
  · refine escFrag_opt_block _ _ ?_ s hmem
    repeat' first
      | (refine EscFrag.lit _ ?_; simp [templateLits]; done)
      | exact EscFrag.escd _
      | exact escFrag_empty
      | apply escFrag_ite
      | apply EscFrag.app
  · refine escFrag_opt_block _ _ ?_ s hmem
    repeat' first
      | (refine EscFrag.lit _ ?_; simp [templateLits]; done)
      | exact EscFrag.escd _
      | exact escFrag_empty
      | apply escFrag_ite
      | apply EscFrag.app

theorem escFrag_metricItemHtml (tp vp up m : JValue) (s : String)
    (h : metricItemHtml tp vp up m = some s) : EscFrag s := by
  unfold metricItemHtml at h
  cases h1 : extractJV m tp with
  | error e => rw [h1] at h; exact absurd h (by simp)
  | ok t =>
    rw [h1] at h
    cases h2 : extractJV m vp with
    | error e => rw [h2] at h; exact absurd h (by simp)
    | ok v =>
      rw [h2] at h
      rw [← Option.some.inj h]
      repeat' first
        | (refine EscFrag.lit _ ?_; simp [templateLits]; done)
        | exact EscFrag.escd _
        | exact escFrag_empty
        | apply escFrag_ite
        | apply EscFrag.app

theorem escFrag_render_metric_grid (d : MappedData) : EscFrag (render_metric_grid d) := by
  unfold render_metric_grid
  cases hme : getJ d "metrics" (.arr []) with
  | arr l =>
    refine EscFrag.app _ _ (EscFrag.app _ _ (EscFrag.lit _ (by simp [templateLits])) ?_)
      (EscFrag.lit _ (by simp [templateLits]))
    exact escFrag_join _ (escFrag_filterMap_items _ _
      (fun a s hfa => escFrag_metricItemHtml _ _ _ a s hfa))
  | null => exact escFrag_render_error _
  | bool b => exact escFrag_render_error _
  | num n => exact escFrag_render_error _
  | str s1 => exact escFrag_render_error _
  | obj kvs => exact escFrag_render_error _

theorem escFrag_statusItemHtml (np sp mp item : JValue) (s : String)
    (h : statusItemHtml np sp mp item = some s) : EscFrag s := by
  unfold statusItemHtml at h
  cases h1 : extractJV item np with
  | error e => rw [h1] at h; exact absurd h (by simp)
  | ok name =>
    rw [h1] at h
    cases h2 : extractJV item sp with
    | error e => rw [h2] at h; exact absurd h (by simp)
    | ok status =>
      rw [h2] at h
      rw [← Option.some.inj h]
      repeat' first
        | (refine EscFrag.lit _ ?_; simp [templateLits]; done)
        | exact EscFrag.escd _
        | exact escFrag_empty
        | exact escFrag_status_icon _
        | exact escFrag_status_class _
        | apply escFrag_ite
        | apply EscFrag.app

theorem escFrag_render_status_list (d : MappedData) : EscFrag (render_status_list d) := by
  unfold render_status_list
  cases hme : getJ d "items" (.arr []) with
  | arr l =>
    refine EscFrag.app _ _ (EscFrag.app _ _ (EscFrag.lit _ (by simp [templateLits])) ?_)
      (EscFrag.lit _ (by simp [templateLits]))
    exact escFrag_join _ (escFrag_filterMap_items _ _
      (fun a s hfa => escFrag_statusItemHtml _ _ _ a s hfa))
  | null => exact escFrag_render_error _
  | bool b => exact escFrag_render_error _
  | num n => exact escFrag_render_error _
  | str s1 => exact escFrag_render_error _
  | obj kvs => exact escFrag_render_error _

theorem escFrag_iconItemHtml (ip tp dp item : JValue) (s : String)
    (h : iconItemHtml ip tp dp item = some s) : EscFrag s := by
  unfold iconItemHtml at h
  cases h1 : extractJV item tp with
  | error e => rw [h1] at h; exact absurd h (by simp)
  | ok title =>
    rw [h1] at h
    rw [← Option.some.inj h]
    repeat' first
      | (refine EscFrag.lit _ ?_; simp [templateLits]; done)
      | exact EscFrag.escd _
      | exact escFrag_empty
      | apply escFrag_ite
      | apply EscFrag.app

theorem escFrag_render_icon_list (d : MappedData) : EscFrag (render_icon_list d) := by
  unfold render_icon_list
  cases hme : getJ d "items" (.arr []) with
  | arr l =>
    refine EscFrag.app _ _ (EscFrag.app _ _ (EscFrag.lit _ (by simp [templateLits])) ?_)
      (EscFrag.lit _ (by simp [templateLits]))
    exact escFrag_join _ (escFrag_filterMap_items _ _
      (fun a s hfa => escFrag_iconItemHtml _ _ _ a s hfa))
  | null => exact escFrag_render_error _
  | bool b => exact escFrag_render_error _
  | num n => exact escFrag_render_error _
  | str s1 => exact escFrag_render_error _
  | obj kvs => exact escFrag_render_error _

theorem escFrag_headlineItemHtml (item : JValue) : EscFrag (headlineItemHtml item) := by
  unfold headlineItemHtml
  cases item with
  | obj kvs =>
    repeat' first
      | (refine EscFrag.lit _ ?_; simp [templateLits]; done)
      | exact EscFrag.escd _
      | exact escFrag_empty
      | apply escFrag_ite
      | apply EscFrag.app
  | null =>
    repeat' first
      | (refine EscFrag.lit _ ?_; simp [templateLits]; done)
      | exact EscFrag.escd _
      | exact escFrag_empty
      | apply escFrag_ite
      | apply EscFrag.app
  | bool b =>
    repeat' first
      | (refine EscFrag.lit _ ?_; simp [templateLits]; done)
      | exact EscFrag.escd _
      | exact escFrag_empty
      | apply escFrag_ite
      | apply EscFrag.app
  | num n =>
    repeat' first
      | (refine EscFrag.lit _ ?_; simp [templateLits]; done)
      | exact EscFrag.escd _
      | exact escFrag_empty
      | apply escFrag_ite
      | apply EscFrag.app
  | str s1 =>
    repeat' first
      | (refine EscFrag.lit _ ?_; simp [templateLits]; done)
      | exact EscFrag.escd _
      | exact escFrag_empty
      | apply escFrag_ite
      | apply EscFrag.app
  | arr xs =>
    repeat' first
      | (refine EscFrag.lit _ ?_; simp [templateLits]; done)
      | exact EscFrag.escd _
      | exact escFrag_empty
      | apply escFrag_ite
      | apply EscFrag.app

theorem escFrag_render_rss_headlines (d : MappedData) :
    EscFrag (render_rss_headlines d) := by
  unfold render_rss_headlines
  cases hme : getJ d "items" (.arr []) with
  | arr l =>
    refine EscFrag.app _ _ (EscFrag.app _ _ (EscFrag.app _ _ (EscFrag.app _ _
      (EscFrag.lit _ (by simp [templateLits])) (EscFrag.escd _))
      (EscFrag.lit _ (by simp [templateLits]))) ?_)
      (EscFrag.lit _ (by simp [templateLits]))
    apply escFrag_join
    intro s hs
    split at hs
    · rw [List.mem_singleton.mp hs]
      exact EscFrag.lit _ (by simp [templateLits])
    · exact escFrag_map_items _ _ (fun a => escFrag_headlineItemHtml a) s hs
  | null => exact escFrag_render_error _
  | bool b => exact escFrag_render_error _
  | num n => exact escFrag_render_error _
  | str s1 => exact escFrag_render_error _
  | obj kvs => exact escFrag_render_error _

set_option maxHeartbeats 1000000 in
theorem escFrag_render_rss_summary (d : MappedData) :
    EscFrag (render_rss_summary d) := by
  unfold render_rss_summary
  cases hme : getJ d "items" (.arr []) with
  | arr l =>
    cases l with
    | nil =>
      try dsimp only
      repeat' first
        | (refine EscFrag.lit _ ?_; simp [templateLits]; done)
        | exact EscFrag.escd _
        | exact escFrag_empty
        | apply escFrag_ite
        | apply EscFrag.app
    | cons item rest =>
      cases item with
      | obj kvs =>
        try dsimp only
        repeat' first
          | (refine EscFrag.lit _ ?_; simp [templateLits]; done)
          | exact EscFrag.escd _
          | exact escFrag_empty
          | apply escFrag_ite
          | apply EscFrag.app
      | null =>
        try dsimp only
        repeat' first
          | (refine EscFrag.lit _ ?_; simp [templateLits]; done)
          | exact EscFrag.escd _
          | exact escFrag_empty
          | apply escFrag_ite
          | apply EscFrag.app
      | bool b =>
        try dsimp only
        repeat' first
          | (refine EscFrag.lit _ ?_; simp [templateLits]; done)
          | exact EscFrag.escd _
          | exact escFrag_empty
          | apply escFrag_ite
          | apply EscFrag.app
      | num n =>
        try dsimp only
        repeat' first
          | (refine EscFrag.lit _ ?_; simp [templateLits]; done)
          | exact EscFrag.escd _
          | exact escFrag_empty
          | apply escFrag_ite
          | apply EscFrag.app
      | str s1 =>
        try dsimp only
        repeat' first
          | (refine EscFrag.lit _ ?_; simp [templateLits]; done)
          | exact EscFrag.escd _
          | exact escFrag_empty
          | apply escFrag_ite
          | apply EscFrag.app
      | arr xs =>
        try dsimp only
        repeat' first
          | (refine EscFrag.lit _ ?_; simp [templateLits]; done)
          | exact EscFrag.escd _
          | exact escFrag_empty
          | apply escFrag_ite
          | apply EscFrag.app
  | null =>
    try dsimp only
    repeat' first
      | (refine EscFrag.lit _ ?_; simp [templateLits]; done)
      | exact EscFrag.escd _
      | exact escFrag_empty
      | apply escFrag_ite
      | apply EscFrag.app
  | bool b =>
    try dsimp only
    repeat' first
      | (refine EscFrag.lit _ ?_; simp [templateLits]; done)
      | exact EscFrag.escd _
      | exact escFrag_empty
      | apply escFrag_ite
      | apply EscFrag.app
  | num n =>
    try dsimp only
    repeat' first
      | (refine EscFrag.lit _ ?_; simp [templateLits]; done)
      | exact EscFrag.escd _
      | exact escFrag_empty
      | apply escFrag_ite
      | apply EscFrag.app
  | str s1 =>
    try dsimp only
    repeat' first
      | (refine EscFrag.lit _ ?_; simp [templateLits]; done)
      | exact EscFrag.escd _
      | exact escFrag_empty
      | apply escFrag_ite
      | apply EscFrag.app
  | obj kvs =>
    try dsimp only
    repeat' first
      | (refine EscFrag.lit _ ?_; simp [templateLits]; done)
      | exact EscFrag.escd _
      | exact escFrag_empty
      | apply escFrag_ite
      | apply EscFrag.app

theorem pyMinV_ok_mem (pts : List JValue) (v : JValue) (h : pyMinV pts = .ok v) :
    v ∈ pts := by
  cases pts with
  | nil => exact absurd h (by simp [pyMinV])
  | cons x rest =>
    rcases minFold_mem rest x v h with rfl | hmem
    · exact List.mem_cons_self _ _
    · exact List.mem_cons_of_mem _ hmem

theorem pyMaxV_ok_mem (pts : List JValue) (v : JValue) (h : pyMaxV pts = .ok v) :
    v ∈ pts := by
  cases pts with
  | nil => exact absurd h (by simp [pyMaxV])
  | cons x rest =>
    rcases maxFold_mem rest x v h with rfl | hmem
    · exact List.mem_cons_self _ _
    · exact List.mem_cons_of_mem _ hmem

set_option maxHeartbeats 1000000 in
theorem escFrag_render_chart_simple (d : MappedData) (frag : String)
    (h : render_chart_simple d = .ok frag) : EscFrag frag := by
  unfold render_chart_simple at h
  cases hdp : getJ d "data_points" (.arr []) with
  | arr pts =>
    rw [hdp] at h
    dsimp only at h
    by_cases hempty : pts.isEmpty
    · rw [if_pos hempty] at h
      rw [← Except.ok.inj h]
      try dsimp only
      repeat' first
        | (refine EscFrag.lit _ ?_; simp [templateLits]; done)
        | exact EscFrag.escd _
        | exact escFrag_empty
        | apply escFrag_ite
        | apply EscFrag.app
    · rw [if_neg hempty] at h
      cases hmin : pyMinV pts with
      | error e => rw [hmin] at h; exact absurd h (by simp)
      | ok mn =>
        rw [hmin] at h
        cases hmax : pyMaxV pts with
        | error e => rw [hmax] at h; exact absurd h (by simp)
        | ok mx =>
          rw [hmax] at h
          cases hsum : pySumV pts with
          | error e => rw [hsum] at h; exact absurd h (by simp)
          | ok s =>
            rw [hsum] at h
            have hnum := sumFold_ok_numVal pts 0 s hsum
            have hmnp : (pyStr mn).data.all plainChar = true :=
              pyStr_numeric_plain mn (hnum mn (pyMinV_ok_mem pts mn hmin))
            have hmxp : (pyStr mx).data.all plainChar = true :=
              pyStr_numeric_plain mx (hnum mx (pyMaxV_ok_mem pts mx hmax))
            rw [← Except.ok.inj h]
            exact (EscFrag.app _ _ (EscFrag.app _ _ (EscFrag.app _ _ (EscFrag.app _ _ (EscFrag.lit _ (by simp [templateLits])) (EscFrag.escd _)) (EscFrag.lit _ (by simp [templateLits]))) (EscFrag.app _ _ (EscFrag.app _ _ (EscFrag.app _ _ (EscFrag.app _ _ (EscFrag.app _ _ (EscFrag.app _ _ (EscFrag.app _ _ (EscFrag.app _ _ (EscFrag.app _ _ (EscFrag.app _ _ (EscFrag.app _ _ (EscFrag.app _ _ (EscFrag.lit _ (by simp [templateLits])) (escFrag_plain (pyStr mn) hmnp)) (escFrag_plain " " (by decide))) (EscFrag.escd _)) (EscFrag.lit _ (by simp [templateLits]))) (escFrag_plain (pyStr mx) hmxp)) (escFrag_plain " " (by decide))) (EscFrag.escd _)) (EscFrag.lit _ (by simp [templateLits]))) (escFrag_formatAvg s pts.length)) (escFrag_plain " " (by decide))) (EscFrag.escd _)) (EscFrag.lit _ (by simp [templateLits])))) (EscFrag.lit _ (by simp [templateLits])))
  | null =>
    rw [hdp] at h
    rw [← Except.ok.inj h]
    exact escFrag_render_error _
  | bool b =>
    rw [hdp] at h
    rw [← Except.ok.inj h]
    exact escFrag_render_error _
  | num n =>
    rw [hdp] at h
    rw [← Except.ok.inj h]
    exact escFrag_render_error _
  | str s1 =>
    rw [hdp] at h
    rw [← Except.ok.inj h]
    exact escFrag_render_error _
  | obj kvs =>
    rw [hdp] at h
    rw [← Except.ok.inj h]
    exact escFrag_render_error _

set_option maxHeartbeats 1000000 in
theorem escFrag_render_rss_feed_info (d : MappedData) (frag : String)
    (h : render_rss_feed_info d = .ok frag) : EscFrag frag := by
  unfold render_rss_feed_info at h
  cases hiv : getJ d "items" (.arr []) with
  | arr xs =>
    rw [hiv] at h
    dsimp only at h
    rw [← Except.ok.inj h]
    try dsimp only
    repeat' first
      | (refine EscFrag.lit _ ?_; simp [templateLits]; done)
      | exact EscFrag.escd _
      | exact escFrag_empty
      | apply escFrag_ite
      | apply EscFrag.app
      | exact escFrag_natStr _
  | str s1 =>
    rw [hiv] at h
    dsimp only at h
    rw [← Except.ok.inj h]
    try dsimp only
    repeat' first
      | (refine EscFrag.lit _ ?_; simp [templateLits]; done)
      | exact EscFrag.escd _
      | exact escFrag_empty
      | apply escFrag_ite
      | apply EscFrag.app
      | exact escFrag_natStr _
  | obj kvs =>
    rw [hiv] at h
    dsimp only at h
    rw [← Except.ok.inj h]
    try dsimp only
    repeat' first
      | (refine EscFrag.lit _ ?_; simp [templateLits]; done)
      | exact EscFrag.escd _
      | exact escFrag_empty
      | apply escFrag_ite
      | apply EscFrag.app
      | exact escFrag_natStr _
  | null =>
    rw [hiv] at h
    exact absurd h (by simp)
  | bool b =>
    rw [hiv] at h
    exact absurd h (by simp)
  | num n =>
    rw [hiv] at h
    exact absurd h (by simp)

/-- C5: for every template identifier and every mapped-data value (and
clock), every fragment the renderer registry produces decomposes into
fixed template-literal chunks and strings in the image of `htmlEscape` —
no data-derived substring reaches the output except through HTML escaping
(the unescaped numeric statistics and counters coincide with their own
escaping, having no HTML-special characters). -/
theorem render_template_escapes (tid : String) (d : MappedData) (clock : Clock)
    (frag : String) (h : render_template tid d clock = .ok frag) : EscFrag frag := by
  by_cases e1 : tid = "key_value"
  · subst e1
    have h2 : (Except.ok (render_key_value d) : Except PyErr String) = .ok frag := h
    rw [← Except.ok.inj h2]
    exact escFrag_render_key_value d
  by_cases e2 : tid = "title_subtitle_value"
  · subst e2
    have h2 : (Except.ok (render_title_subtitle_value d) : Except PyErr String) = .ok frag := h
    rw [← Except.ok.inj h2]
    exact escFrag_render_title_subtitle_value d
  by_cases e3 : tid = "metric_grid"
  · subst e3
    have h2 : (Except.ok (render_metric_grid d) : Except PyErr String) = .ok frag := h
    rw [← Except.ok.inj h2]
    exact escFrag_render_metric_grid d
  by_cases e4 : tid = "weather_current"
  · subst e4
    have h2 : (Except.ok (render_weather_current d) : Except PyErr String) = .ok frag := h
    rw [← Except.ok.inj h2]
    exact escFrag_render_weather_current d
  by_cases e5 : tid = "time_display"
  · subst e5
    have h2 : (Except.ok (render_time_display d clock) : Except PyErr String) = .ok frag := h
    rw [← Except.ok.inj h2]
    exact escFrag_render_time_display d clock
  by_cases e6 : tid = "status_list"
  · subst e6
    have h2 : (Except.ok (render_status_list d) : Except PyErr String) = .ok frag := h
    rw [← Except.ok.inj h2]
    exact escFrag_render_status_list d
  by_cases e7 : tid = "icon_list"
  · subst e7
    have h2 : (Except.ok (render_icon_list d) : Except PyErr String) = .ok frag := h
    rw [← Except.ok.inj h2]
    exact escFrag_render_icon_list d
  by_cases e8 : tid = "text_block"
  · subst e8
    have h2 : (Except.ok (render_text_block d) : Except PyErr String) = .ok frag := h
    rw [← Except.ok.inj h2]
    exact escFrag_render_text_block d
  by_cases e9 : tid = "chart_simple"
  · subst e9
    have h2 : render_chart_simple d = .ok frag := h
    exact escFrag_render_chart_simple d frag h2
  by_cases e10 : tid = "image_caption"
  · subst e10
    have h2 : (Except.ok (render_image_caption d) : Except PyErr String) = .ok frag := h
    rw [← Except.ok.inj h2]
    exact escFrag_render_image_caption d
  by_cases e11 : tid = "rss_headlines"
  · subst e11
    have h2 : (Except.ok (render_rss_headlines d) : Except PyErr String) = .ok frag := h
    rw [← Except.ok.inj h2]
    exact escFrag_render_rss_headlines d
  by_cases e12 : tid = "rss_summary"
  · subst e12
    have h2 : (Except.ok (render_rss_summary d) : Except PyErr String) = .ok frag := h
    rw [← Except.ok.inj h2]
    exact escFrag_render_rss_summary d
  by_cases e13 : tid = "rss_feed_info"
  · subst e13
    have h2 : render_rss_feed_info d = .ok frag := h
    exact escFrag_render_rss_feed_info d frag h2
  unfold render_template at h
  simp only [if_neg e1, if_neg e2, if_neg e3, if_neg e4, if_neg e5, if_neg e6, if_neg e7, if_neg e8, if_neg e9, if_neg e10, if_neg e11, if_neg e12, if_neg e13] at h
  rw [← Except.ok.inj h]
  exact escFrag_render_error _

/-- Witness for C5 at a concrete template and a title holding
HTML-special characters. -/
theorem render_template_escapes_witness :
    EscFrag (render_key_value [("title", JValue.str "<b>&")]) :=
  render_template_escapes "key_value" [("title", JValue.str "<b>&")] ⟨"", ""⟩
    (render_key_value [("title", JValue.str "<b>&")]) rfl
